import Mathlib

/-!
# terraform-provider-paypal: reconciliation and translation layer

A shallow embedding of the resource code under `paypal/`:

* `resource_paypal_subscription_plan.go`  (`SubscriptionPlanResource`)
* `resource_paypal_catalog_product.go`    (`CatalogProductResource`)
* `resource_paypal_notification_webhook.go` (`WebhookResource`)

Go strings are modelled by Lean strings (valid UTF-8 text), Go `int` by `Int`,
Go slices by lists, a Go `error` result by `Option Error` (`none` is `nil`),
and a run-time panic by `Except.error`.  The PayPal SDK client is an explicit
transition system on an abstract remote state; every remote call a CRUD
function issues is appended to a call log.
-/

namespace Paypal

/-! ## Go standard library: `strconv.ParseFloat(s, 64)` -/

namespace strconv

/-- An IEEE-754 binary64 value.  Every finite binary64 number is an integer
multiple of `2^-1074`; `fin neg n` is the number `(-1)^neg * n * 2^-1074`
(so `fin true 0` is the negative zero). -/
inductive Float64 where
  | nan : Float64
  | inf (neg : Bool) : Float64
  | fin (neg : Bool) (units : Nat) : Float64
  deriving DecidableEq, Repr

/-- Go's `==` on two `float64` values: a NaN is equal to nothing, the two
zeros are equal to each other. -/
def Float64.eq : Float64 → Float64 → Bool
  | .fin s₁ n₁, .fin s₂ n₂ => n₁ == n₂ && (s₁ == s₂ || n₁ == 0)
  | .inf s₁, .inf s₂ => s₁ == s₂
  | _, _ => false

/-- The rational number a finite binary64 value denotes. -/
def Float64.toRat : Bool → Nat → ℚ
  | false, n => (n : ℚ) / 2 ^ 1074
  | true, n => -((n : ℚ) / 2 ^ 1074)

/-- The two errors of `strconv`. -/
inductive NumError where
  | ErrSyntax : NumError
  | ErrRange : NumError
  deriving DecidableEq, Repr

/-- Round the quotient `n / d` to the nearest natural number, ties to even. -/
def roundHalfEven (n d : Nat) : Nat :=
  let q := n / d
  let r := n % d
  if 2 * r < d then q
  else if d < 2 * r then q + 1
  else if q % 2 = 0 then q else q + 1

/-- The number of binary digits of `n`, by repeated halving; the fuel `n`
always suffices. -/
def bitLen (n : Nat) : Nat :=
  go n n
where
  go : Nat → Nat → Nat
    | 0, _ => 0
    | fuel + 1, m => if m = 0 then 0 else go fuel (m / 2) + 1

/-- Round the non-negative rational `n / d` to binary64 (nearest, ties to
even), returned in units of `2^-1074`; `none` when the rounded value is
`2^1024` or more (overflow).  Below `2^53` units the grid step is one unit
(subnormals and the first binade), above it the step is `2^j` where `j` is the
number of bits in excess of 53. -/
def roundToFloat64 (n d : Nat) : Option Nat :=
  let t := n * 2 ^ 1074
  let j := bitLen (t / d) - 53
  let u := roundHalfEven t (d * 2 ^ j) * 2 ^ j
  if 2 ^ 2098 ≤ u then none else some u

/-- Go `lower`: `c | ('x' - 'X')`, the ASCII lower-casing used by the number
readers (as a character code). -/
def lower (c : Char) : Nat := c.toNat ||| 0x20

def isDigit (c : Char) : Bool := '0'.toNat ≤ c.toNat && c.toNat ≤ '9'.toNat

def isHexLetter (c : Char) : Bool := 'a'.toNat ≤ lower c && lower c ≤ 'f'.toNat

/-- Go `commonPrefixLenIgnoreCase(s, prefix)`; `prefix` is lower-case. -/
def commonPrefixLenIgnoreCase : List Char → List Char → Nat
  | c :: s, p :: pre =>
    let c' := if 'A'.toNat ≤ c.toNat ∧ c.toNat ≤ 'Z'.toNat then c.toNat + 32 else c.toNat
    if c' = p.toNat then commonPrefixLenIgnoreCase s pre + 1 else 0
  | _, _ => 0

/-- Go `special`: the value and the number of bytes consumed when `s` starts
with an infinity or a NaN. -/
def special (s : List Char) : Option (Float64 × Nat) :=
  let inf (neg : Bool) (nsign : Nat) (t : List Char) : Option (Float64 × Nat) :=
    let n := commonPrefixLenIgnoreCase t "infinity".toList
    let n := if 3 < n ∧ n < 8 then 3 else n
    if n = 3 ∨ n = 8 then some (Float64.inf neg, nsign + n) else none
  match s with
  | [] => none
  | c :: t =>
    if c = '+' then inf false 1 t
    else if c = '-' then inf true 1 t
    else if c = 'i' ∨ c = 'I' then inf false 0 s
    else if c = 'n' ∨ c = 'N' then
      if commonPrefixLenIgnoreCase s "nan".toList = 3 then some (Float64.nan, 3) else none
    else none

/-- Go `underscoreOK` (after the optional sign has been removed): the state
`saw` is `'^'` at the start, `'0'` after a digit or base prefix, `'_'` after an
underscore and `'!'` after anything else. -/
def underscoreLoop (hex : Bool) : Char → List Char → Bool
  | saw, [] => saw != '_'
  | saw, c :: s =>
    if isDigit c || (hex && isHexLetter c) then underscoreLoop hex '0' s
    else if c = '_' then
      if saw != '0' then false else underscoreLoop hex '_' s
    else if saw = '_' then false
    else underscoreLoop hex '!' s

/-- Go `underscoreOK`: underscores only between digits, or between a base
prefix and a digit. -/
def underscoreOK (s : List Char) : Bool :=
  let s := match s with
    | c :: t => if c = '-' ∨ c = '+' then t else s
    | [] => s
  match s with
  | c₀ :: c₁ :: t =>
    if c₀ = '0' ∧ (lower c₁ = 'b'.toNat ∨ lower c₁ = 'o'.toNat ∨ lower c₁ = 'x'.toNat) then
      underscoreLoop (lower c₁ == 'x'.toNat) '0' t
    else underscoreLoop false '^' s
  | _ => underscoreLoop false '^' s

/-- The number a well-formed literal denotes, before rounding: `mant * 10^exp`,
or `mant * 2^exp` for a hexadecimal literal, negated when `neg`. -/
structure Literal where
  neg : Bool
  hex : Bool
  mant : Nat
  exp : Int
  deriving DecidableEq, Repr

/-- The loop state of Go `readFloat`; `mantissa` holds every digit read (the
Go code keeps 19 digits and a `trunc` flag and falls back to exact decimal
arithmetic, which gives the correctly rounded result of the full literal). -/
structure ReadState where
  sawdot : Bool := false
  sawdigits : Bool := false
  nd : Nat := 0
  dp : Int := 0
  mantissa : Nat := 0
  underscores : Bool := false

/-- The digit loop of `readFloat`: returns the state and the unread rest. -/
def readDigits (hex : Bool) : ReadState → List Char → ReadState × List Char
  | st, [] => (st, [])
  | st, c :: s =>
    if c = '_' then readDigits hex { st with underscores := true } s
    else if c = '.' then
      if st.sawdot then (st, c :: s)
      else readDigits hex { st with sawdot := true, dp := st.nd } s
    else if isDigit c then
      if c = '0' ∧ st.nd = 0 then
        readDigits hex { st with sawdigits := true, dp := st.dp - 1 } s
      else
        let m := st.mantissa * (if hex then 16 else 10) + (c.toNat - '0'.toNat)
        readDigits hex { st with sawdigits := true, nd := st.nd + 1, mantissa := m } s
    else if hex && isHexLetter c then
      let m := st.mantissa * 16 + (lower c - 'a'.toNat + 10)
      readDigits hex { st with sawdigits := true, nd := st.nd + 1, mantissa := m } s
    else (st, c :: s)

/-- The exponent digit loop of `readFloat`: the exponent stops growing once it
has reached 10000.  Returns the exponent, whether an underscore was seen, and
the unread rest. -/
def readExpDigits : Nat → Bool → List Char → Nat × Bool × List Char
  | e, u, [] => (e, u, [])
  | e, u, c :: s =>
    if c = '_' then readExpDigits e true s
    else if isDigit c then
      readExpDigits (if e < 10000 then e * 10 + (c.toNat - '0'.toNat) else e) u s
    else (e, u, c :: s)

/-- Go `readFloat` followed by the check of `ParseFloat` that the whole string
was consumed: the literal read, or `none` for a syntax error. -/
def readFloat (s : List Char) : Option Literal :=
  -- optional sign
  let (neg, s₁) := match s with
    | c :: t => if c = '+' then (false, t) else if c = '-' then (true, t) else (false, s)
    | [] => (false, s)
  if s = [] then none else
  -- base prefix: needs at least one character after it
  let (hex, s₂) := match s₁ with
    | c₀ :: c₁ :: c₂ :: t =>
      if c₀ = '0' ∧ lower c₁ = 'x'.toNat then (true, c₂ :: t) else (false, s₁)
    | _ => (false, s₁)
  let (st, s₃) := readDigits hex {} s₂
  if !st.sawdigits then none else
  let dp : Int := if st.sawdot then st.dp else st.nd
  let dp := if hex then dp * 4 else dp
  let ndMant : Int := if hex then (st.nd : Int) * 4 else st.nd
  let expChar := if hex then 'p' else 'e'
  let finish (dp : Int) (underscores : Bool) (rest : List Char) : Option Literal :=
    if rest ≠ [] then none
    else if underscores && !underscoreOK s then none
    else some ⟨neg, hex, st.mantissa, if st.mantissa ≠ 0 then dp - ndMant else 0⟩
  match s₃ with
  | c :: s₄ =>
    if lower c = expChar.toNat then
      let (esign, s₅) : Int × List Char := match s₄ with
        | c :: t => if c = '+' then (1, t) else if c = '-' then (-1, t) else (1, s₄)
        | [] => (1, s₄)
      match s₅ with
      | c :: _ =>
        if !isDigit c then none
        else
          let (e, u, s₆) := readExpDigits 0 st.underscores s₅
          finish (dp + (e : Int) * esign) u s₆
      | [] => none
    else if hex then none
    else finish dp st.underscores s₃
  | [] => if hex then none else finish dp st.underscores s₃

/-- Numerator and denominator of the magnitude of a literal. -/
def Literal.fraction (l : Literal) : Nat × Nat :=
  let b : Nat := if l.hex then 2 else 10
  if 0 ≤ l.exp then (l.mant * b ^ l.exp.toNat, 1) else (l.mant, b ^ (-l.exp).toNat)

/-- Go `strconv.ParseFloat(s, 64)`: a NaN or infinity by name, or the literal
read by `readFloat` rounded to the nearest binary64 value (ties to even); a
literal that rounds to `2^1024` or more is a range error. -/
def ParseFloat (s : String) : Except NumError Float64 :=
  match special s.toList with
  | some (f, n) => if n = s.toList.length then .ok f else .error .ErrSyntax
  | none =>
    match readFloat s.toList with
    | none => .error .ErrSyntax
    | some l =>
      match roundToFloat64 l.fraction.1 l.fraction.2 with
      | some u => .ok (.fin l.neg u)
      | none => .error .ErrRange

/-- The rational number that a decimal literal denotes exactly, with no
rounding: what "parses as a decimal number" and "numerically equal" mean for
the strings themselves.  `none` for a string that is not a decimal literal. -/
def decimalValue (s : String) : Option ℚ :=
  match readFloat s.toList with
  | some l =>
    if l.hex then none
    else some ((if l.neg then -1 else 1) * (l.mant : ℚ) * 10 ^ l.exp)
  | none => none

end strconv

deriving instance DecidableEq for Except

/-! ## Go standard library: `strings.ToUpper`, `strings.ToLower` -/

/-- The Unicode case tables of the Go runtime for the runes above ASCII
(`unicode.To(UpperCase, r)` and `unicode.To(LowerCase, r)`); they are not part
of the provider and are taken as a parameter. -/
structure CaseTables where
  upper : Char → Char
  lower : Char → Char

namespace unicode

/-- Go `unicode.ToUpper`. -/
def ToUpper (tables : CaseTables) (r : Char) : Char :=
  if r.toNat ≤ 0x7F then
    if 'a'.toNat ≤ r.toNat ∧ r.toNat ≤ 'z'.toNat then Char.ofNat (r.toNat - 32) else r
  else tables.upper r

/-- Go `unicode.ToLower`. -/
def ToLower (tables : CaseTables) (r : Char) : Char :=
  if r.toNat ≤ 0x7F then
    if 'A'.toNat ≤ r.toNat ∧ r.toNat ≤ 'Z'.toNat then Char.ofNat (r.toNat + 32) else r
  else tables.lower r

end unicode

namespace strings

/-- Go `strings.ToUpper`: `unicode.ToUpper` mapped over the runes. -/
def ToUpper (tables : CaseTables) (s : String) : String :=
  ⟨s.data.map (unicode.ToUpper tables)⟩

/-- Go `strings.ToLower`: `unicode.ToLower` mapped over the runes. -/
def ToLower (tables : CaseTables) (s : String) : String :=
  ⟨s.data.map (unicode.ToLower tables)⟩

end strings

/-! ## PayPal SDK types (the fields the provider reads or writes) -/

namespace paypalSdk

structure Money where
  Currency : String
  Value : String
  deriving DecidableEq, Repr

structure Taxes where
  Percentage : String
  Inclusive : Bool
  deriving DecidableEq, Repr

/-- `SetupFee` is a pointer in the SDK: `none` is `nil`. -/
structure PaymentPreferences where
  AutoBillOutstanding : Bool
  SetupFee : Option Money
  SetupFeeFailureAction : String
  PaymentFailureThreshold : Int
  deriving DecidableEq, Repr

structure Frequency where
  IntervalUnit : String
  IntervalCount : Int
  deriving DecidableEq, Repr

structure PricingScheme where
  Version : Int
  FixedPrice : Money
  deriving DecidableEq, Repr

structure BillingCycle where
  PricingScheme : PricingScheme
  Frequency : Frequency
  TenureType : String
  Sequence : Int
  TotalCycles : Int
  deriving DecidableEq, Repr

/-- `PaymentPreferences` and `Taxes` are pointers in the SDK: `none` is `nil`. -/
structure SubscriptionPlan where
  ID : String
  ProductId : String
  Name : String
  Status : String
  Description : String
  BillingCycles : List BillingCycle
  PaymentPreferences : Option PaymentPreferences
  Taxes : Option Taxes
  QuantitySupported : Bool
  deriving DecidableEq, Repr

structure PricingSchemeUpdate where
  BillingCycleSequence : Int
  PricingScheme : PricingScheme
  deriving DecidableEq, Repr

/-- The field `Type` of the SDK is written `Type_` (`Type` is a keyword). -/
structure Product where
  ID : String
  Name : String
  Description : String
  Category : String
  Type_ : String
  ImageUrl : String
  HomeUrl : String
  deriving DecidableEq, Repr

structure WebhookEventType where
  Name : String
  Description : String := ""
  deriving DecidableEq, Repr

end paypalSdk

/-- A Go `error` value. -/
structure Error where
  msg : String
  deriving DecidableEq, Repr

/-- A Go run-time panic. -/
inductive Panic where
  | indexOutOfRange : Panic
  | nilDereference : Panic
  | interfaceConversion : Panic
  deriving DecidableEq, Repr

/-- One call of a method of `paypalSdk.Client`, with its arguments. -/
inductive Call where
  | CreateProduct (product : paypalSdk.Product)
  | GetProduct (productId : String)
  | UpdateProduct (product : paypalSdk.Product)
  | CreateSubscriptionPlan (newPlan : paypalSdk.SubscriptionPlan)
  | GetSubscriptionPlan (planId : String)
  | UpdateSubscriptionPlan (updatedPlan : paypalSdk.SubscriptionPlan)
  | UpdateSubscriptionPlanPricing (planId : String)
      (pricingSchemes : List paypalSdk.PricingSchemeUpdate)
  | DeactivateSubscriptionPlans (planId : String)
  | DeleteWebhook (webhookID : String)
  deriving DecidableEq, Repr

/-- The methods of `paypalSdk.Client` the provider calls, as transitions of
the remote state `σ`.  A method that returns `(value, error)` is an `Except`;
a method that returns only an `error` is an `Option Error`. -/
structure Client (σ : Type) where
  CreateProduct : paypalSdk.Product → σ → Except Error paypalSdk.Product × σ
  GetProduct : String → σ → Except Error paypalSdk.Product × σ
  UpdateProduct : paypalSdk.Product → σ → Option Error × σ
  CreateSubscriptionPlan :
    paypalSdk.SubscriptionPlan → σ → Except Error paypalSdk.SubscriptionPlan × σ
  GetSubscriptionPlan : String → σ → Except Error paypalSdk.SubscriptionPlan × σ
  UpdateSubscriptionPlan : paypalSdk.SubscriptionPlan → σ → Option Error × σ
  UpdateSubscriptionPlanPricing :
    String → List paypalSdk.PricingSchemeUpdate → σ → Option Error × σ
  DeactivateSubscriptionPlans : String → σ → Option Error × σ
  DeleteWebhook : String → σ → Option Error × σ

/-- The remote state together with the log of the calls issued so far. -/
structure World (σ : Type) where
  remote : σ
  calls : List Call

/-- Issue one remote call: log it and run its transition. -/
def World.call {σ ρ : Type} (w : World σ) (c : Call) (step : σ → ρ × σ) : ρ × World σ :=
  ((step w.remote).1, { remote := (step w.remote).2, calls := w.calls ++ [c] })

/-- How a CRUD function ends: it returns its `error` result, or it panics. -/
inductive Outcome where
  | returned (err : Option Error)
  | panicked (p : Panic)
  deriving DecidableEq, Repr

/-- The result of a CRUD function: how it ended, the resource data `d` and
the world afterwards. -/
structure Result (δ σ : Type) where
  outcome : Outcome
  d : δ
  world : World σ

/-! ## Terraform `helper/schema`: the values handed to `d.Set` -/

/-- A Go `interface{}` value as the provider builds it for `d.Set`: a string,
an int, a bool, a slice, or a `map[string]interface{}`. -/
inductive AttrValue where
  | str : String → AttrValue
  | int : Int → AttrValue
  | bool : Bool → AttrValue
  | list : List AttrValue → AttrValue
  | map : List (String × AttrValue) → AttrValue

namespace AttrValue

/-- Every key of an object value must be a field of the nested schema. -/
def keysIn (m : List (String × AttrValue)) (keys : List String) : Bool :=
  m.all (fun kv => keys.contains kv.1)

/-- A `TypeString` field of an object value; an absent key leaves the zero
value. -/
def getStr (m : List (String × AttrValue)) (k : String) : Option String :=
  match m.lookup k with
  | none => some ""
  | some (.str s) => some s
  | some _ => none

/-- A `TypeInt` field of an object value. -/
def getInt (m : List (String × AttrValue)) (k : String) : Option Int :=
  match m.lookup k with
  | none => some 0
  | some (.int i) => some i
  | some _ => none

/-- A `TypeBool` field of an object value. -/
def getBool (m : List (String × AttrValue)) (k : String) : Option Bool :=
  match m.lookup k with
  | none => some false
  | some (.bool b) => some b
  | some _ => none

/-- A `TypeList` field or attribute: the value must be a slice (a map is
refused: "source data must be an array or slice"), and every element must fit
the element schema. -/
def decodeList {α : Type} (elem : AttrValue → Option α) : AttrValue → Option (List α)
  | .list l => l.mapM elem
  | _ => none

/-- A `TypeList` field of an object value. -/
def getList {α : Type} (elem : AttrValue → Option α) (m : List (String × AttrValue))
    (k : String) : Option (List α) :=
  match m.lookup k with
  | none => some []
  | some v => decodeList elem v

end AttrValue

/-! ## `resource_paypal_subscription_plan.go` -/

namespace SubscriptionPlanResource

/-- A `fixed_price` or `setup_fee` block. -/
structure MoneyData where
  value : String
  currency_code : String
  deriving DecidableEq, Repr

/-- A `frequency` block. -/
structure FrequencyData where
  interval_unit : String
  interval_count : Int
  deriving DecidableEq, Repr

/-- A `pricing_scheme` block. -/
structure PricingSchemeData where
  version : Int
  fixed_price : List MoneyData
  deriving DecidableEq, Repr

/-- A `billing_cycle` block. -/
structure BillingCycleData where
  sequence : Int
  total_cycles : Int
  tenure_type : String
  frequency : List FrequencyData
  pricing_scheme : List PricingSchemeData
  deriving DecidableEq, Repr

/-- A `payment_preferences` block. -/
structure PaymentPreferencesData where
  auto_bill_outstanding : Bool
  setup_fee : List MoneyData
  payment_failure_threshold : Int
  setup_fee_failure_action : String
  deriving DecidableEq, Repr

/-- A `taxes` block. -/
structure TaxesData where
  percentage : String
  inclusive : Bool
  deriving DecidableEq, Repr

/-- The `schema.ResourceData` of a subscription plan, typed by `Schema()`:
the ID and one field per attribute. -/
structure ResourceData where
  id : String
  product_id : String
  name : String
  description : String
  status : String
  quantity_supported : Bool
  billing_cycle : List BillingCycleData
  payment_preferences : List PaymentPreferencesData
  taxes : List TaxesData
  deriving DecidableEq, Repr

/-- Go `xs[0]`: panics on an empty slice. -/
def index0 {α : Type} : List α → Except Panic α
  | [] => .error .indexOutOfRange
  | x :: _ => .ok x

/-- Whether `helper/schema` presents this `fixed_price` or `setup_fee` block
as a nil list element.  A block is read as nil when none of its fields is
set; an int or bool field that is declared is always set, and a string field
is set unless it is empty, so of the nested blocks of a plan only those two,
which have string fields only, can be nil: when `value` and `currency_code`
are both empty.  (The data are those of a configuration applied without prior
state, as in `Create`.) -/
def MoneyData.isNil (m : MoneyData) : Bool := m.value == "" && m.currency_code == ""

/-- Go `x.(map[string]interface{})` on an element of a `fixed_price` or
`setup_fee` list: the unchecked assertion panics on a nil element. -/
def assertMap (m : MoneyData) : Except Panic MoneyData :=
  if m.isNil then .error .interfaceConversion else .ok m

/-- The body of the billing-cycle loop of `sdkObjectFromResourceData`. -/
def billingCycleFromData (billingCycleData : BillingCycleData) :
    Except Panic paypalSdk.BillingCycle := do
  -- Frequency
  let frequencyData ← index0 billingCycleData.frequency
  let billingCycleFrequency : paypalSdk.Frequency :=
    { IntervalUnit := frequencyData.interval_unit
      IntervalCount := frequencyData.interval_count }
  -- Pricing Scheme
  let pricingSchemeData ← index0 billingCycleData.pricing_scheme
  -- Pricing scheme - Fixed price
  let fixedPriceData ← (index0 pricingSchemeData.fixed_price) >>= assertMap
  let billingCyclePricingScheme : paypalSdk.PricingScheme :=
    { Version := pricingSchemeData.version
      FixedPrice := { Currency := fixedPriceData.currency_code, Value := fixedPriceData.value } }
  -- Put it all together
  pure
    { Sequence := billingCycleData.sequence
      TotalCycles := billingCycleData.total_cycles
      TenureType := billingCycleData.tenure_type
      Frequency := billingCycleFrequency
      PricingScheme := billingCyclePricingScheme }

/-- `sdkObjectFromResourceData`: a PayPal SDK object from resource data.  The
payment preferences are read under the guard `len(taxesData) == 1`, as in the
source.  The loop over `billing_cycle` appends one SDK cycle per block, in
order.  Every `xs[0].(map[string]interface{})` of the source is an index
followed by an unchecked assertion; the assertion can fail only on the
`setup_fee` and `fixed_price` elements (see `MoneyData.isNil`). -/
def sdkObjectFromResourceData (d : ResourceData) : Except Panic paypalSdk.SubscriptionPlan := do
  let subscriptionPlan : paypalSdk.SubscriptionPlan :=
    { ID := d.id
      ProductId := d.product_id
      Name := d.name
      Status := ""
      Description := d.description
      BillingCycles := []
      PaymentPreferences := none
      Taxes := none
      QuantitySupported := d.quantity_supported }
  -- Add taxes
  let taxesData := d.taxes
  let taxes : Option paypalSdk.Taxes ←
    if taxesData.length = 1 then do
      let taxData ← index0 taxesData
      pure (some { Percentage := taxData.percentage, Inclusive := taxData.inclusive })
    else pure subscriptionPlan.Taxes
  -- Payment preferences
  let paymentPreferencesData := d.payment_preferences
  let paymentPreferences : Option paypalSdk.PaymentPreferences ←
    if taxesData.length = 1 then do
      let paymentPreferenceData ← index0 paymentPreferencesData
      let setupFeeData ← (index0 paymentPreferenceData.setup_fee) >>= assertMap
      pure (some
        { AutoBillOutstanding := paymentPreferenceData.auto_bill_outstanding
          PaymentFailureThreshold := paymentPreferenceData.payment_failure_threshold
          SetupFee := some { Currency := setupFeeData.currency_code, Value := setupFeeData.value }
          SetupFeeFailureAction := paymentPreferenceData.setup_fee_failure_action })
    else pure subscriptionPlan.PaymentPreferences
  -- Billing cycle
  let billingCycles ← d.billing_cycle.mapM billingCycleFromData
  pure { subscriptionPlan with
    Taxes := taxes, PaymentPreferences := paymentPreferences, BillingCycles := billingCycles }

/-- `d.Set` on a `fixed_price` or `setup_fee` element. -/
def decodeMoney : AttrValue → Option MoneyData
  | .map m =>
    if AttrValue.keysIn m ["value", "currency_code"] then do
      pure { value := ← AttrValue.getStr m "value"
             currency_code := ← AttrValue.getStr m "currency_code" }
    else none
  | _ => none

/-- `d.Set` on a `frequency` element. -/
def decodeFrequency : AttrValue → Option FrequencyData
  | .map m =>
    if AttrValue.keysIn m ["interval_unit", "interval_count"] then do
      pure { interval_unit := ← AttrValue.getStr m "interval_unit"
             interval_count := ← AttrValue.getInt m "interval_count" }
    else none
  | _ => none

/-- `d.Set` on a `pricing_scheme` element. -/
def decodePricingScheme : AttrValue → Option PricingSchemeData
  | .map m =>
    if AttrValue.keysIn m ["version", "fixed_price"] then do
      pure { version := ← AttrValue.getInt m "version"
             fixed_price := ← AttrValue.getList decodeMoney m "fixed_price" }
    else none
  | _ => none

/-- `d.Set` on a `billing_cycle` element. -/
def decodeBillingCycle : AttrValue → Option BillingCycleData
  | .map m =>
    if AttrValue.keysIn m
        ["sequence", "total_cycles", "tenure_type", "frequency", "pricing_scheme"] then do
      pure { sequence := ← AttrValue.getInt m "sequence"
             total_cycles := ← AttrValue.getInt m "total_cycles"
             tenure_type := ← AttrValue.getStr m "tenure_type"
             frequency := ← AttrValue.getList decodeFrequency m "frequency"
             pricing_scheme := ← AttrValue.getList decodePricingScheme m "pricing_scheme" }
    else none
  | _ => none

/-- `d.Set` on a `payment_preferences` element. -/
def decodePaymentPreferences : AttrValue → Option PaymentPreferencesData
  | .map m =>
    if AttrValue.keysIn m ["auto_bill_outstanding", "setup_fee", "payment_failure_threshold",
        "setup_fee_failure_action"] then do
      pure { auto_bill_outstanding := ← AttrValue.getBool m "auto_bill_outstanding"
             setup_fee := ← AttrValue.getList decodeMoney m "setup_fee"
             payment_failure_threshold := ← AttrValue.getInt m "payment_failure_threshold"
             setup_fee_failure_action := ← AttrValue.getStr m "setup_fee_failure_action" }
    else none
  | _ => none

/-- `d.Set` on a `taxes` element. -/
def decodeTaxes : AttrValue → Option TaxesData
  | .map m =>
    if AttrValue.keysIn m ["percentage", "inclusive"] then do
      pure { percentage := ← AttrValue.getStr m "percentage"
             inclusive := ← AttrValue.getBool m "inclusive" }
    else none
  | _ => none

/-- `d.SetId`. -/
def ResourceData.SetId (d : ResourceData) (id : String) : ResourceData := { d with id := id }

/-- `d.Set(key, value)` with its error result discarded, as every caller in
this file does: a value that fits the schema of `key` replaces the attribute;
a value that does not fit (or a key that is not in the schema) makes `Set`
fail, and the attribute reads as before. -/
def ResourceData.Set (d : ResourceData) (key : String) (value : AttrValue) : ResourceData :=
  if key = "status" then
    match value with | .str s => { d with status := s } | _ => d
  else if key = "product_id" then
    match value with | .str s => { d with product_id := s } | _ => d
  else if key = "name" then
    match value with | .str s => { d with name := s } | _ => d
  else if key = "description" then
    match value with | .str s => { d with description := s } | _ => d
  else if key = "quantity_supported" then
    match value with | .bool b => { d with quantity_supported := b } | _ => d
  else if key = "taxes" then
    match AttrValue.decodeList decodeTaxes value with
    | some l => { d with taxes := l } | none => d
  else if key = "payment_preferences" then
    match AttrValue.decodeList decodePaymentPreferences value with
    | some l => { d with payment_preferences := l } | none => d
  else if key = "billing_cycle" then
    match AttrValue.decodeList decodeBillingCycle value with
    | some l => { d with billing_cycle := l } | none => d
  else d

/-- The value `Read` builds for `taxes`. -/
def readTaxes (planTaxes : paypalSdk.Taxes) : AttrValue :=
  .list [.map [("percentage", .str planTaxes.Percentage),
               ("inclusive", .bool planTaxes.Inclusive)]]

/-- The value `Read` builds for `payment_preferences`; `setup_fee` is a single
map here, as in the source. -/
def readPaymentPreferences (prefs : paypalSdk.PaymentPreferences) (setupFee : paypalSdk.Money) :
    AttrValue :=
  .list [.map [("auto_bill_outstanding", .bool prefs.AutoBillOutstanding),
               ("setup_fee", .map [("value", .str setupFee.Value),
                                   ("currency_code", .str setupFee.Currency)]),
               ("payment_failure_threshold", .int prefs.PaymentFailureThreshold),
               ("setup_fee_failure_action", .str prefs.SetupFeeFailureAction)]]

/-- The value `Read` builds for one billing cycle. -/
def readBillingCycle (tables : CaseTables) (billingCycleObj : paypalSdk.BillingCycle) :
    AttrValue :=
  .map [("sequence", .int billingCycleObj.Sequence),
        ("total_cycles", .int billingCycleObj.TotalCycles),
        ("tenure_type", .str (strings.ToLower tables billingCycleObj.TenureType)),
        ("frequency", .list [.map
          [("interval_unit", .str (strings.ToLower tables billingCycleObj.Frequency.IntervalUnit)),
           ("interval_count", .int billingCycleObj.Frequency.IntervalCount)]]),
        ("pricing_scheme", .list [.map
          [("version", .int billingCycleObj.PricingScheme.Version),
           ("fixed_price", .list [.map
             [("value", .str billingCycleObj.PricingScheme.FixedPrice.Value),
              ("currency_code", .str billingCycleObj.PricingScheme.FixedPrice.Currency)]])]])]

/-- `Read`: get a subscription plan and set every attribute from it.  The
pointers `Taxes`, `PaymentPreferences` and `SetupFee` are dereferenced
without a nil check. -/
def Read {σ : Type} (tables : CaseTables) (client : Client σ) (d : ResourceData)
    (w : World σ) : Result ResourceData σ :=
  let r := w.call (.GetSubscriptionPlan d.id) (client.GetSubscriptionPlan d.id)
  match r.1 with
  | .error err => ⟨.returned (some err), d, r.2⟩
  | .ok subscriptionPlan =>
    match subscriptionPlan.Taxes with
    | none => ⟨.panicked .nilDereference, d, r.2⟩
    | some planTaxes =>
      -- Taxes to resource data map
      let taxes := readTaxes planTaxes
      match subscriptionPlan.PaymentPreferences with
      | none => ⟨.panicked .nilDereference, d, r.2⟩
      | some prefs =>
        match prefs.SetupFee with
        | none => ⟨.panicked .nilDereference, d, r.2⟩
        | some setupFee =>
          -- Payment preferences to map
          let paymentPreferences := readPaymentPreferences prefs setupFee
          -- Billing cycles to array of maps
          let billingCycles :=
            AttrValue.list (subscriptionPlan.BillingCycles.map (readBillingCycle tables))
          let d := d.SetId subscriptionPlan.ID
          let d := d.Set "status" (.str subscriptionPlan.Status)
          let d := d.Set "product_id" (.str subscriptionPlan.ProductId)
          let d := d.Set "name" (.str subscriptionPlan.Name)
          let d := d.Set "description" (.str subscriptionPlan.Description)
          let d := d.Set "quantity_supported" (.bool subscriptionPlan.QuantitySupported)
          let d := d.Set "taxes" taxes
          let d := d.Set "payment_preferences" paymentPreferences
          let d := d.Set "billing_cycle" billingCycles
          ⟨.returned none, d, r.2⟩

/-- `Create`: creating a subscription plan.  The result of the `Read` that
follows the remote create is not looked at (a panic inside it still
propagates). -/
def Create {σ : Type} (tables : CaseTables) (client : Client σ) (d : ResourceData)
    (w : World σ) : Result ResourceData σ :=
  match sdkObjectFromResourceData d with
  | .error p => ⟨.panicked p, d, w⟩
  | .ok subscriptionPlan =>
    -- Create the plan
    let r := w.call (.CreateSubscriptionPlan subscriptionPlan)
      (client.CreateSubscriptionPlan subscriptionPlan)
    match r.1 with
    | .error err => ⟨.returned (some err), d, r.2⟩
    | .ok billingResponse =>
      let d := d.SetId billingResponse.ID
      let read := Read tables client d r.2
      match read.outcome with
      | .panicked p => ⟨.panicked p, read.d, read.world⟩
      | .returned _ => ⟨.returned none, read.d, read.world⟩

/-- The loop of `Update` that builds the pricing updates: one entry per SDK
billing cycle, appended in order. -/
def pricingSchemeUpdates (billingCycles : List paypalSdk.BillingCycle) :
    List paypalSdk.PricingSchemeUpdate :=
  billingCycles.foldl
    (fun pricingSchemeUpdates billingCycleObj =>
      pricingSchemeUpdates ++
        [{ BillingCycleSequence := billingCycleObj.Sequence
           PricingScheme := billingCycleObj.PricingScheme }])
    []

/-- `Update`: update a subscription plan, then its pricing, then `Read`.
After a failed pricing update the function returns `err`, the error variable
of the general update, which is `nil` at that point. -/
def Update {σ : Type} (tables : CaseTables) (client : Client σ) (d : ResourceData)
    (w : World σ) : Result ResourceData σ :=
  match sdkObjectFromResourceData d with
  | .error p => ⟨.panicked p, d, w⟩
  | .ok subscriptionPlan =>
    -- Update as much as we can from subscription plan
    let r := w.call (.UpdateSubscriptionPlan subscriptionPlan)
      (client.UpdateSubscriptionPlan subscriptionPlan)
    let err := r.1
    match err with
    | some e => ⟨.returned (some e), d, r.2⟩
    | none =>
      -- Update pricing separately
      let updates := pricingSchemeUpdates subscriptionPlan.BillingCycles
      let r := r.2.call (.UpdateSubscriptionPlanPricing subscriptionPlan.ID updates)
        (client.UpdateSubscriptionPlanPricing subscriptionPlan.ID updates)
      let pricingErr := r.1
      match pricingErr with
      | some _ => ⟨.returned err, d, r.2⟩
      | none => Read tables client d r.2

/-- `Delete`: subscription plans cannot be deleted, so the plan is deactivated
and the ID reference is removed. -/
def Delete {σ : Type} (client : Client σ) (d : ResourceData) (w : World σ) :
    Result ResourceData σ :=
  let r := w.call (.DeactivateSubscriptionPlans d.id) (client.DeactivateSubscriptionPlans d.id)
  match r.1 with
  | some err => ⟨.returned (some err), d, r.2⟩
  | none =>
    -- Even though we can't delete it, we can remove our id reference
    ⟨.returned none, d.SetId "", r.2⟩

/-- `diffSuppressFuncForFloats`: compare string versions of floats. -/
def diffSuppressFuncForFloats (_k old new : String) (_d : ResourceData) : Bool :=
  match strconv.ParseFloat old with
  | .error _ => false
  | .ok oldFloat =>
    match strconv.ParseFloat new with
    | .error _ => false
    | .ok newFloat => oldFloat.eq newFloat

end SubscriptionPlanResource

/-! ## `resource_paypal_catalog_product.go` -/

namespace CatalogProductResource

/-- The `schema.ResourceData` of a catalog product, typed by `Schema()`; the
attribute `type` is the field `type_`. -/
structure ResourceData where
  id : String
  name : String
  description : String
  image_url : String
  home_url : String
  type_ : String
  category : String
  deriving DecidableEq, Repr

/-- `productTypes`: list of acceptable product types; the SDK constants are
`"PHYSICAL"`, `"DIGITAL"` and `"SERVICE"`. -/
def productTypes (tables : CaseTables) : List String :=
  [strings.ToLower tables "PHYSICAL", strings.ToLower tables "DIGITAL",
   strings.ToLower tables "SERVICE"]

/-- `Create`: creating a catalog product. -/
def Create {σ : Type} (tables : CaseTables) (client : Client σ) (d : ResourceData)
    (w : World σ) : Result ResourceData σ :=
  let imageURL := d.image_url
  let homeURL := d.home_url
  if imageURL = "" ∨ homeURL = "" then
    ⟨.returned (some ⟨"both image_url and home_url need to be set"⟩), d, w⟩
  else
    let sent : paypalSdk.Product :=
      { ID := ""
        Name := d.name
        Description := d.description
        ImageUrl := imageURL
        HomeUrl := homeURL
        Type_ := strings.ToUpper tables d.type_
        Category := strings.ToUpper tables d.category }
    let r := w.call (.CreateProduct sent) (client.CreateProduct sent)
    match r.1 with
    | .error err => ⟨.returned (some err), d, r.2⟩
    | .ok product =>
      ⟨.returned none,
       { id := product.ID
         name := product.Name
         description := product.Description
         image_url := product.ImageUrl
         home_url := product.HomeUrl
         type_ := product.Type_
         category := product.Category },
       r.2⟩

/-- `Read`: get a catalog product. -/
def Read {σ : Type} (tables : CaseTables) (client : Client σ) (d : ResourceData)
    (w : World σ) : Result ResourceData σ :=
  let r := w.call (.GetProduct d.id) (client.GetProduct d.id)
  match r.1 with
  | .error err => ⟨.returned (some err), d, r.2⟩
  | .ok product =>
    ⟨.returned none,
     { d with
       name := product.Name
       description := product.Description
       image_url := product.ImageUrl
       home_url := product.HomeUrl
       type_ := strings.ToLower tables product.Type_
       category := product.Category },
     r.2⟩

/-- `Update`: update a catalog product, then `Read`. -/
def Update {σ : Type} (tables : CaseTables) (client : Client σ) (d : ResourceData)
    (w : World σ) : Result ResourceData σ :=
  let imageURL := d.image_url
  let homeURL := d.home_url
  if imageURL = "" ∨ homeURL = "" then
    ⟨.returned (some ⟨"both image_url and home_url need to be set"⟩), d, w⟩
  else
    let product : paypalSdk.Product :=
      { ID := d.id
        Name := d.name
        Description := d.description
        ImageUrl := imageURL
        HomeUrl := homeURL
        Type_ := strings.ToUpper tables d.type_
        Category := strings.ToUpper tables d.category }
    let r := w.call (.UpdateProduct product) (client.UpdateProduct product)
    match r.1 with
    | some err => ⟨.returned (some err), d, r.2⟩
    | none => Read tables client d r.2

/-- `Delete`: products cannot be deleted, so the name and the description are
marked as removed and the ID reference is removed. -/
def Delete {σ : Type} (client : Client σ) (d : ResourceData) (w : World σ) :
    Result ResourceData σ :=
  -- Get the current product
  let r := w.call (.GetProduct d.id) (client.GetProduct d.id)
  match r.1 with
  | .error getErr => ⟨.returned (some getErr), d, r.2⟩
  | .ok product =>
    -- Update the name
    let product := { product with Name := "(removed) " ++ product.Name }
    let product := { product with Description := "(removed) " ++ product.Description }
    -- Push the updated plan
    let r := r.2.call (.UpdateProduct product) (client.UpdateProduct product)
    match r.1 with
    | some updateErr => ⟨.returned (some updateErr), d, r.2⟩
    | none =>
      -- Remove our ID reference
      ⟨.returned none, { d with id := "" }, r.2⟩

end CatalogProductResource

/-! ## `resource_paypal_notification_webhook.go` -/

namespace WebhookResource

/-- The `schema.ResourceData` of a webhook, typed by `Schema()`. -/
structure ResourceData where
  id : String
  url : String
  event_types : List String
  deriving DecidableEq, Repr

/-- `Delete`: delete the notification webhook. -/
def Delete {σ : Type} (client : Client σ) (d : ResourceData) (w : World σ) :
    Result ResourceData σ :=
  let r := w.call (.DeleteWebhook d.id) (client.DeleteWebhook d.id)
  match r.1 with
  | some err => ⟨.returned (some err), d, r.2⟩
  | none => ⟨.returned none, { d with id := "" }, r.2⟩

/-- `eventTypeNamesToEventTypes`: one event type per name, appended in order,
its name upper-cased. -/
def eventTypeNamesToEventTypes (tables : CaseTables) (eventTypeNames : List String) :
    List paypalSdk.WebhookEventType :=
  eventTypeNames.foldl
    (fun eventTypes eventTypeName =>
      eventTypes ++ [{ Name := strings.ToUpper tables eventTypeName }])
    []

/-- `eventTypesToEventTypeNames`: the name of every event type, appended in
order. -/
def eventTypesToEventTypeNames (eventTypes : List paypalSdk.WebhookEventType) : List String :=
  eventTypes.foldl (fun eventTypeNames eventType => eventTypeNames ++ [eventType.Name]) []

end WebhookResource

/-! ## Concrete inputs for the examples -/

/-- A subscription plan with one regular monthly cycle, used as the concrete
resource data of the examples. -/
def examplePlanData : SubscriptionPlanResource.ResourceData :=
  { id := "P-1"
    product_id := "PROD-1"
    name := "Basic"
    description := "Basic plan"
    status := "ACTIVE"
    quantity_supported := false
    billing_cycle :=
      [{ sequence := 1
         total_cycles := 0
         tenure_type := "regular"
         frequency := [{ interval_unit := "month", interval_count := 1 }]
         pricing_scheme :=
           [{ version := 1, fixed_price := [{ value := "10", currency_code := "USD" }] }] }]
    payment_preferences :=
      [{ auto_bill_outstanding := true
         setup_fee := [{ value := "0", currency_code := "USD" }]
         payment_failure_threshold := 2
         setup_fee_failure_action := "continue" }]
    taxes := [{ percentage := "10", inclusive := false }] }

/-- Case tables that change no rune above ASCII; used only at the concrete
examples, whose strings are ASCII. -/
def exampleTables : CaseTables := { upper := id, lower := id }

/-- The remote product of the examples. -/
def exampleProduct : paypalSdk.Product :=
  { ID := "PROD-1"
    Name := "Widget"
    Description := "desc"
    Category := "SOFTWARE"
    Type_ := "DIGITAL"
    ImageUrl := "https://example.com/widget.png"
    HomeUrl := "https://example.com/widget" }

/-- The declared catalog product of the examples. -/
def exampleProductData : CatalogProductResource.ResourceData :=
  { id := "PROD-1"
    name := "Widget"
    description := "desc"
    image_url := "https://example.com/widget.png"
    home_url := "https://example.com/widget"
    type_ := "digital"
    category := "software" }

/-- The remote subscription plan of the examples. -/
def examplePlan : paypalSdk.SubscriptionPlan :=
  { ID := "P-1"
    ProductId := "PROD-1"
    Name := "Basic"
    Status := "ACTIVE"
    Description := "Basic plan"
    BillingCycles :=
      [{ PricingScheme := { Version := 1, FixedPrice := { Currency := "USD", Value := "10.00" } }
         Frequency := { IntervalUnit := "MONTH", IntervalCount := 1 }
         TenureType := "REGULAR"
         Sequence := 1
         TotalCycles := 0 }]
    PaymentPreferences := some
      { AutoBillOutstanding := true
        SetupFee := some { Currency := "USD", Value := "0.00" }
        SetupFeeFailureAction := "CONTINUE"
        PaymentFailureThreshold := 2 }
    Taxes := some { Percentage := "10.00", Inclusive := false }
    QuantitySupported := false }

/-- The declared webhook of the examples. -/
def exampleWebhookData : WebhookResource.ResourceData :=
  { id := "WH-1", url := "https://example.com/hook", event_types := ["PAYMENT.SALE.COMPLETED"] }

/-- A stateless remote API on which every call succeeds: the get and create
calls answer with `exampleProduct` and `examplePlan`. -/
def okClient : Client Unit :=
  { CreateProduct := fun _ s => (.ok exampleProduct, s)
    GetProduct := fun _ s => (.ok exampleProduct, s)
    UpdateProduct := fun _ s => (none, s)
    CreateSubscriptionPlan := fun _ s => (.ok examplePlan, s)
    GetSubscriptionPlan := fun _ s => (.ok examplePlan, s)
    UpdateSubscriptionPlan := fun _ s => (none, s)
    UpdateSubscriptionPlanPricing := fun _ _ s => (none, s)
    DeactivateSubscriptionPlans := fun _ s => (none, s)
    DeleteWebhook := fun _ s => (none, s) }

/-- A stateless remote API on which every call fails with `e`. -/
def failingClient (e : Error) : Client Unit :=
  { CreateProduct := fun _ s => (.error e, s)
    GetProduct := fun _ s => (.error e, s)
    UpdateProduct := fun _ s => (some e, s)
    CreateSubscriptionPlan := fun _ s => (.error e, s)
    GetSubscriptionPlan := fun _ s => (.error e, s)
    UpdateSubscriptionPlan := fun _ s => (some e, s)
    UpdateSubscriptionPlanPricing := fun _ _ s => (some e, s)
    DeactivateSubscriptionPlans := fun _ s => (some e, s)
    DeleteWebhook := fun _ s => (some e, s) }

/-- A remote API on which only `UpdateProduct` fails. -/
def updateProductFailsClient (e : Error) : Client Unit :=
  { okClient with UpdateProduct := fun _ s => (some e, s) }

/-- A remote API on which only `UpdateSubscriptionPlanPricing` fails. -/
def pricingFailsClient (e : Error) : Client Unit :=
  { okClient with UpdateSubscriptionPlanPricing := fun _ _ s => (some e, s) }

/-- The world before any call. -/
def World.start : World Unit := { remote := (), calls := [] }

/-- The object `CatalogProductResource.Delete` writes back for the remote
product `p`. -/
def CatalogProductResource.markedRemoved (p : paypalSdk.Product) : paypalSdk.Product :=
  { p with Name := "(removed) " ++ p.Name, Description := "(removed) " ++ p.Description }

/-- A string of the declared-state convention for enumerated fields: every
character is ASCII and none is an upper-case letter. -/
def isLowerASCII (s : String) : Prop :=
  ∀ c ∈ s.data, c.toNat ≤ 0x7F ∧ ¬ ('A'.toNat ≤ c.toNat ∧ c.toNat ≤ 'Z'.toNat)

instance (s : String) : Decidable (isLowerASCII s) := by
  unfold isLowerASCII
  infer_instance

/-- The example plan declared without a `taxes` block (the block is
optional in the schema). -/
def examplePlanDataNoTaxes : SubscriptionPlanResource.ResourceData :=
  { examplePlanData with taxes := [] }

/-- The example plan with a billing cycle whose `frequency` list is empty. -/
def examplePlanDataNoFrequency : SubscriptionPlanResource.ResourceData :=
  { examplePlanData with
    billing_cycle :=
      [{ sequence := 1
         total_cycles := 0
         tenure_type := "regular"
         frequency := []
         pricing_scheme :=
           [{ version := 1, fixed_price := [{ value := "10", currency_code := "USD" }] }] }] }

/-- The example plan with a trial cycle and a regular cycle that share the
sequence number 1. -/
def examplePlanDataSharedSequence : SubscriptionPlanResource.ResourceData :=
  { examplePlanData with
    billing_cycle :=
      [{ sequence := 1
         total_cycles := 2
         tenure_type := "trial"
         frequency := [{ interval_unit := "week", interval_count := 1 }]
         pricing_scheme :=
           [{ version := 1, fixed_price := [{ value := "1", currency_code := "USD" }] }] },
       { sequence := 1
         total_cycles := 0
         tenure_type := "regular"
         frequency := [{ interval_unit := "month", interval_count := 3 }]
         pricing_scheme :=
           [{ version := 2, fixed_price := [{ value := "10", currency_code := "EUR" }] }] }] }

/-- The example plan whose billing cycle has one `fixed_price` block with an
empty `value` and an empty `currency_code`. -/
def examplePlanDataEmptyPrice : SubscriptionPlanResource.ResourceData :=
  { examplePlanData with
    billing_cycle :=
      [{ sequence := 1
         total_cycles := 0
         tenure_type := "regular"
         frequency := [{ interval_unit := "month", interval_count := 1 }]
         pricing_scheme :=
           [{ version := 1, fixed_price := [{ value := "", currency_code := "" }] }] }] }

/-- The example plan, with its `taxes` block, declared without a
`payment_preferences` block. -/
def examplePlanDataNoPreferences : SubscriptionPlanResource.ResourceData :=
  { examplePlanData with payment_preferences := [] }

/-- No `setup_fee` or `fixed_price` block of the tree is a nil element. -/
def SubscriptionPlanResource.ResourceData.noNilBlocks
    (d : SubscriptionPlanResource.ResourceData) : Prop :=
  (∀ pp ∈ d.payment_preferences, ∀ fee ∈ pp.setup_fee, fee.isNil = false)
  ∧ (∀ c ∈ d.billing_cycle, ∀ p ∈ c.pricing_scheme, ∀ m ∈ p.fixed_price, m.isNil = false)

/-- A remote API on which every call succeeds and `GetSubscriptionPlan`
answers with `plan`. -/
def planClient (plan : paypalSdk.SubscriptionPlan) : Client Unit :=
  { okClient with GetSubscriptionPlan := fun _ s => (.ok plan, s) }

/-- A remote API on which only `GetSubscriptionPlan` fails. -/
def getPlanFailsClient (e : Error) : Client Unit :=
  { okClient with GetSubscriptionPlan := fun _ s => (.error e, s) }

/-- Resource data that knows only an ID (the import path): every attribute
has its zero value. -/
def SubscriptionPlanResource.ResourceData.blank (id : String) :
    SubscriptionPlanResource.ResourceData :=
  { id := id
    product_id := ""
    name := ""
    description := ""
    status := ""
    quantity_supported := false
    billing_cycle := []
    payment_preferences := []
    taxes := [] }

/-- The round trip `FromRemote(ToRemote(tree))` for a subscription plan: the
tree is translated by `sdkObjectFromResourceData`, and the plan obtained is
translated back by `Read`, run on blank resource data against a remote API
that answers with that plan. -/
def SubscriptionPlanResource.roundTrip (tables : CaseTables)
    (d : SubscriptionPlanResource.ResourceData) :
    Result SubscriptionPlanResource.ResourceData Unit :=
  match SubscriptionPlanResource.sdkObjectFromResourceData d with
  | .error p => ⟨.panicked p, .blank d.id, World.start⟩
  | .ok plan => SubscriptionPlanResource.Read tables (planClient plan) (.blank d.id) World.start

/-- A billing cycle in which a nested singleton list that
`sdkObjectFromResourceData` indexes is empty: `frequency`, `pricing_scheme`,
or the `fixed_price` of its pricing scheme. -/
def SubscriptionPlanResource.BillingCycleData.malformed
    (c : SubscriptionPlanResource.BillingCycleData) : Prop :=
  c.frequency = [] ∨ c.pricing_scheme = []
    ∨ ∃ p rest, c.pricing_scheme = p :: rest ∧ p.fixed_price = []

/-- A billing cycle with exactly one `frequency`, one `pricing_scheme` and
one `fixed_price`, as the schema requires. -/
def SubscriptionPlanResource.BillingCycleData.wellFormed
    (c : SubscriptionPlanResource.BillingCycleData) : Prop :=
  ∃ f p m, c.frequency = [f] ∧ c.pricing_scheme = [p] ∧ p.fixed_price = [m]

/-- The error of local validation that the claims name (`InvalidEnumValue` of
the spec, §7), with the field and the offending value. -/
inductive ValidationError where
  | InvalidEnumValue (field : String) (value : String)
  deriving DecidableEq, Repr

/-- Modelled from the spec: the allowed-value check of `Validate` (§4.1),
which is the `ValidateFunc` `validation.StringInSlice(valid, true)` of the
Terraform SDK and not part of the provider's source.  A value is in the set
under case-insensitive comparison when it is an allowed value, or equals one
after both are lower-cased. -/
def StringInSlice (tables : CaseTables) (valid : List String) (ignoreCase : Bool)
    (v : String) : Bool :=
  valid.any (fun str =>
    v == str || (ignoreCase && strings.ToLower tables v == strings.ToLower tables str))

/-- Modelled from the spec: `Validate` (§4.1) for a catalog product,
restricted to the allowed-value set of `type`, which `Schema()` declares as
`validation.StringInSlice(r.productTypes(), true)`. -/
def CatalogProductResource.Validate (tables : CaseTables)
    (d : CatalogProductResource.ResourceData) : Except ValidationError Unit :=
  if StringInSlice tables (CatalogProductResource.productTypes tables) true d.type_ then .ok ()
  else .error (.InvalidEnumValue "type" d.type_)

/-- Modelled from the spec: Create as the host runs it (§4.4): the desired
tree is validated first, and the provider's `Create` runs only for a valid
tree; a rejected tree leaves the resource data and the world as they were. -/
def CatalogProductResource.validatedCreate {σ : Type} (tables : CaseTables) (client : Client σ)
    (d : CatalogProductResource.ResourceData) (w : World σ) :
    Except ValidationError Outcome × CatalogProductResource.ResourceData × World σ :=
  match CatalogProductResource.Validate tables d with
  | .error e => (.error e, d, w)
  | .ok _ =>
    (.ok (CatalogProductResource.Create tables client d w).outcome,
     (CatalogProductResource.Create tables client d w).d,
     (CatalogProductResource.Create tables client d w).world)

/-! ## Theorems -/

/-- Two signed quotients over one positive denominator are equal exactly when
the numerators are equal and the signs agree or the numerator is zero. -/
theorem signed_div_eq_iff (c : ℚ) (hc : 0 < c) (s₁ s₂ : Bool) (n₁ n₂ : Nat) :
    (if s₁ then -((n₁ : ℚ) / c) else (n₁ : ℚ) / c)
      = (if s₂ then -((n₂ : ℚ) / c) else (n₂ : ℚ) / c)
    ↔ n₁ = n₂ ∧ (s₁ = s₂ ∨ n₁ = 0) := by
  have h₁ : (0 : ℚ) ≤ (n₁ : ℚ) / c := div_nonneg (Nat.cast_nonneg n₁) hc.le
  have h₂ : (0 : ℚ) ≤ (n₂ : ℚ) / c := div_nonneg (Nat.cast_nonneg n₂) hc.le
  have key : (n₁ : ℚ) / c = (n₂ : ℚ) / c ↔ n₁ = n₂ := by
    rw [div_left_inj' hc.ne']
    exact Nat.cast_inj
  have zero : ∀ n : Nat, (n : ℚ) / c = 0 → n = 0 := by
    intro n h
    rcases div_eq_zero_iff.mp h with h | h
    · exact Nat.cast_eq_zero.mp h
    · exact absurd h hc.ne'
  have mixed : ∀ a b : Nat, 0 ≤ (a : ℚ) / c → 0 ≤ (b : ℚ) / c →
      ((a : ℚ) / c = -((b : ℚ) / c) ↔ a = b ∧ a = 0) := by
    intro a b ha hb
    constructor
    · intro h
      have e₁ := zero a (by linarith)
      have e₂ := zero b (by linarith)
      exact ⟨by rw [e₁, e₂], e₁⟩
    · rintro ⟨h, h'⟩
      subst h; subst h'; simp
  cases s₁ <;> cases s₂
  · simpa using key
  · simpa using mixed n₁ n₂ h₁ h₂
  · have := mixed n₂ n₁ h₂ h₁
    simp only [if_true, Bool.false_eq_true, if_false]
    constructor
    · intro h
      obtain ⟨e, e0⟩ := this.mp h.symm
      exact ⟨e.symm, Or.inr (e ▸ e0)⟩
    · rintro ⟨h, h' | h'⟩
      · exact absurd h' (by decide)
      · subst h; subst h'; simp
  · simpa using key

open strconv in
/-- Go `==` on two finite binary64 values is equality of the numbers they
denote. -/
theorem Float64.toRat_eq_iff (s₁ s₂ : Bool) (n₁ n₂ : Nat) :
    Float64.toRat s₁ n₁ = Float64.toRat s₂ n₂ ↔ n₁ = n₂ ∧ (s₁ = s₂ ∨ n₁ = 0) := by
  have hc : (0 : ℚ) < 2 ^ 1074 := pow_pos (by norm_num) 1074
  have h := signed_div_eq_iff _ hc s₁ s₂ n₁ n₂
  cases s₁ <;> cases s₂ <;> simpa [Float64.toRat] using h

open strconv SubscriptionPlanResource in
/-- When both strings parse, `diffSuppressFuncForFloats` is Go `==` on the two
parsed values. -/
theorem diffSuppress_of_parsed (k old new : String) (d : ResourceData) (a b : Float64)
    (h₁ : ParseFloat old = .ok a) (h₂ : ParseFloat new = .ok b) :
    diffSuppressFuncForFloats k old new d = a.eq b := by
  simp [diffSuppressFuncForFloats, h₁, h₂]

/-! ### C1, C2: `diffSuppressFuncForFloats` -/

open strconv SubscriptionPlanResource in
set_option maxRecDepth 100000 in
set_option exponentiation.threshold 4096 in
/-- C1, as stated, fails: the decimal numbers 9007199254740992 and
9007199254740993 both parse and are not numerically equal, yet
`diffSuppressFuncForFloats` returns true for them, because both round to the
binary64 value `2^53`. -/
theorem C1_counterexample_distinct_decimals_suppressed :
    decimalValue "9007199254740992" = some 9007199254740992
    ∧ decimalValue "9007199254740993" = some 9007199254740993
    ∧ (9007199254740992 : ℚ) ≠ 9007199254740993
    ∧ diffSuppressFuncForFloats "value" "9007199254740992" "9007199254740993"
        examplePlanData = true := by
  have r₁ : readFloat "9007199254740992".toList = some ⟨false, false, 9007199254740992, 0⟩ := by
    decide
  have r₂ : readFloat "9007199254740993".toList = some ⟨false, false, 9007199254740993, 0⟩ := by
    decide
  refine ⟨?_, ?_, by norm_num, ?_⟩
  · rw [decimalValue, r₁]
    simp
  · rw [decimalValue, r₂]
    simp
  · simp only [diffSuppressFuncForFloats]
    decide

open strconv SubscriptionPlanResource in
set_option maxRecDepth 100000 in
set_option exponentiation.threshold 4096 in
/-- C1 (amended): whenever `old` and `new` both parse to finite binary64
values, `diffSuppressFuncForFloats(k, old, new, d)` returns true if and only
if these two binary64 values, the roundings of the two numbers, are
numerically equal, whatever `k` and `d` are; `("10", "10.00")` gives true and
`("10", "10.5")` gives false. -/
theorem C1_diffSuppress_iff_binary64_equal :
    (∀ (k old new : String) (d : ResourceData) (s₁ s₂ : Bool) (n₁ n₂ : Nat),
      ParseFloat old = .ok (.fin s₁ n₁) → ParseFloat new = .ok (.fin s₂ n₂) →
      (diffSuppressFuncForFloats k old new d = true
        ↔ Float64.toRat s₁ n₁ = Float64.toRat s₂ n₂))
    ∧ (∀ (k : String) (d : ResourceData), diffSuppressFuncForFloats k "10" "10.00" d = true)
    ∧ (∀ (k : String) (d : ResourceData), diffSuppressFuncForFloats k "10" "10.5" d = false) := by
  refine ⟨?_, ?_, ?_⟩
  · intro k old new d s₁ s₂ n₁ n₂ h₁ h₂
    rw [diffSuppress_of_parsed k old new d _ _ h₁ h₂, Float64.toRat_eq_iff]
    simp [Float64.eq]
  · intro k d
    simp only [diffSuppressFuncForFloats]
    decide
  · intro k d
    simp only [diffSuppressFuncForFloats]
    decide

open strconv SubscriptionPlanResource in
set_option maxRecDepth 100000 in
set_option exponentiation.threshold 4096 in
/-- Witness for C1: `"10"` and `"10.00"` both parse to the binary64 value 10,
that is `10 * 2^1074` units of `2^-1074`. -/
theorem C1_diffSuppress_iff_binary64_equal_witness :
    ParseFloat "10" = .ok (.fin false (10 * 2 ^ 1074))
    ∧ ParseFloat "10.00" = .ok (.fin false (10 * 2 ^ 1074))
    ∧ (diffSuppressFuncForFloats "value" "10" "10.00" examplePlanData = true
        ↔ Float64.toRat false (10 * 2 ^ 1074) = Float64.toRat false (10 * 2 ^ 1074)) :=
  ⟨by decide, by decide,
   C1_diffSuppress_iff_binary64_equal.1 "value" "10" "10.00" examplePlanData false false
     (10 * 2 ^ 1074) (10 * 2 ^ 1074) (by decide) (by decide)⟩

open strconv SubscriptionPlanResource in
/-- C2: if `old` or `new` fails to parse as a number, that is
`strconv.ParseFloat` returns an error for it, then `diffSuppressFuncForFloats`
returns false; `("abc", "10")` and `("10", "abc")` both give false. -/
theorem C2_diffSuppress_false_on_parse_failure :
    (∀ (k old new : String) (d : ResourceData),
      ((∃ e, ParseFloat old = .error e) ∨ (∃ e, ParseFloat new = .error e)) →
      diffSuppressFuncForFloats k old new d = false)
    ∧ (∀ (k : String) (d : ResourceData), diffSuppressFuncForFloats k "abc" "10" d = false)
    ∧ (∀ (k : String) (d : ResourceData), diffSuppressFuncForFloats k "10" "abc" d = false) := by
  have general : ∀ (k old new : String) (d : ResourceData),
      ((∃ e, ParseFloat old = .error e) ∨ (∃ e, ParseFloat new = .error e)) →
      diffSuppressFuncForFloats k old new d = false := by
    intro k old new d h
    rcases h with ⟨e, he⟩ | ⟨e, he⟩
    · simp [diffSuppressFuncForFloats, he]
    · simp only [diffSuppressFuncForFloats, he]
      cases ParseFloat old <;> rfl
  have abc : ParseFloat "abc" = .error .ErrSyntax := by decide
  exact ⟨general, fun k d => general k "abc" "10" d (Or.inl ⟨_, abc⟩),
    fun k d => general k "10" "abc" d (Or.inr ⟨_, abc⟩)⟩

open strconv SubscriptionPlanResource in
/-- Witness for C2: `"abc"` is a syntax error for `ParseFloat`. -/
theorem C2_diffSuppress_false_on_parse_failure_witness :
    ParseFloat "abc" = .error .ErrSyntax
    ∧ diffSuppressFuncForFloats "value" "abc" "10" examplePlanData = false :=
  ⟨by decide,
   C2_diffSuppress_false_on_parse_failure.1 "value" "abc" "10" examplePlanData
     (Or.inl ⟨.ErrSyntax, by decide⟩)⟩

/-! ### C3, C4, C5: `Delete` -/

open CatalogProductResource in
/-- C3: for every remote catalog product `p` that `GetProduct` returns for the
local ID, when `GetProduct` and `UpdateProduct` both succeed, `Delete` issues
exactly the calls `GetProduct(id)` and one `UpdateProduct` whose payload is
`p` with the name replaced by `"(removed) "` followed by the name of `p`, the
description replaced by `"(removed) "` followed by the description of `p`,
and every other field unchanged; it returns no error and the local ID
afterwards is the empty string. -/
theorem C3_product_delete_marks_removed {σ : Type} (client : Client σ) (d : ResourceData)
    (w : World σ) (p : paypalSdk.Product)
    (hget : (client.GetProduct d.id w.remote).1 = .ok p)
    (hupdate : (client.UpdateProduct (markedRemoved p)
      (client.GetProduct d.id w.remote).2).1 = none) :
    (Delete client d w).world.calls
        = w.calls ++ [.GetProduct d.id, .UpdateProduct (markedRemoved p)]
    ∧ (markedRemoved p).Name = "(removed) " ++ p.Name
    ∧ (markedRemoved p).Description = "(removed) " ++ p.Description
    ∧ (markedRemoved p).ID = p.ID ∧ (markedRemoved p).Category = p.Category
    ∧ (markedRemoved p).Type_ = p.Type_ ∧ (markedRemoved p).ImageUrl = p.ImageUrl
    ∧ (markedRemoved p).HomeUrl = p.HomeUrl
    ∧ (Delete client d w).outcome = .returned none
    ∧ (Delete client d w).d.id = "" := by
  have hupdate' : (client.UpdateProduct
      { ID := p.ID, Name := "(removed) " ++ p.Name, Description := "(removed) " ++ p.Description,
        Category := p.Category, Type_ := p.Type_, ImageUrl := p.ImageUrl, HomeUrl := p.HomeUrl }
      (client.GetProduct d.id w.remote).2).1 = none := hupdate
  simp [Delete, World.call, hget, hupdate', markedRemoved]

open CatalogProductResource in
/-- Witness for C3: for the product named `"Widget"` with description
`"desc"` the update carries `"(removed) Widget"` and `"(removed) desc"`. -/
theorem C3_product_delete_marks_removed_witness :
    (okClient.GetProduct exampleProductData.id World.start.remote).1 = .ok exampleProduct
    ∧ (Delete okClient exampleProductData World.start).world.calls
        = [.GetProduct "PROD-1",
           .UpdateProduct
             { ID := "PROD-1"
               Name := "(removed) Widget"
               Description := "(removed) desc"
               Category := "SOFTWARE"
               Type_ := "DIGITAL"
               ImageUrl := "https://example.com/widget.png"
               HomeUrl := "https://example.com/widget" }]
    ∧ (Delete okClient exampleProductData World.start).d.id = "" :=
  have h := C3_product_delete_marks_removed okClient exampleProductData World.start
    exampleProduct rfl rfl
  ⟨rfl, h.1, h.2.2.2.2.2.2.2.2.2⟩

open SubscriptionPlanResource in
/-- C4: for every subscription plan ID, `Delete` issues exactly one remote
call, `DeactivateSubscriptionPlans` for that ID (no delete and no update
call); when that call succeeds `Delete` returns no error and the local ID is
the empty string. -/
theorem C4_plan_delete_deactivates {σ : Type} (client : Client σ) (d : ResourceData)
    (w : World σ) :
    (Delete client d w).world.calls = w.calls ++ [.DeactivateSubscriptionPlans d.id]
    ∧ ((client.DeactivateSubscriptionPlans d.id w.remote).1 = none →
        (Delete client d w).outcome = .returned none ∧ (Delete client d w).d.id = "") := by
  constructor
  · simp only [Delete, World.call]
    cases (client.DeactivateSubscriptionPlans d.id w.remote).1 <;> rfl
  · intro h
    simp [Delete, World.call, h, ResourceData.SetId]

open SubscriptionPlanResource in
/-- Witness for C4: deleting the example plan against a remote API that
accepts the deactivation. -/
theorem C4_plan_delete_deactivates_witness :
    (okClient.DeactivateSubscriptionPlans examplePlanData.id World.start.remote).1 = none
    ∧ (Delete okClient examplePlanData World.start).world.calls
        = [.DeactivateSubscriptionPlans "P-1"]
    ∧ (Delete okClient examplePlanData World.start).outcome = .returned none
    ∧ (Delete okClient examplePlanData World.start).d.id = "" :=
  have h := C4_plan_delete_deactivates okClient examplePlanData World.start
  ⟨rfl, h.1, h.2 rfl⟩

/-- C5: for each of the three resource kinds, if a remote call made by
`Delete` fails (`DeleteWebhook`; `GetProduct` or `UpdateProduct`;
`DeactivateSubscriptionPlans`) then `Delete` returns that error and the local
ID and attributes are unchanged; for the catalog product a failed
`GetProduct` is the only call issued, so no `UpdateProduct` follows it. -/
theorem C5_delete_failure_keeps_local_state {σ : Type} (client : Client σ) (w : World σ)
    (e : Error) :
    (∀ d : WebhookResource.ResourceData,
      (client.DeleteWebhook d.id w.remote).1 = some e →
      (WebhookResource.Delete client d w).outcome = .returned (some e)
      ∧ (WebhookResource.Delete client d w).d = d)
    ∧ (∀ d : CatalogProductResource.ResourceData,
      (client.GetProduct d.id w.remote).1 = .error e →
      (CatalogProductResource.Delete client d w).outcome = .returned (some e)
      ∧ (CatalogProductResource.Delete client d w).d = d
      ∧ (CatalogProductResource.Delete client d w).world.calls = w.calls ++ [.GetProduct d.id])
    ∧ (∀ (d : CatalogProductResource.ResourceData) (p : paypalSdk.Product),
      (client.GetProduct d.id w.remote).1 = .ok p →
      (client.UpdateProduct (CatalogProductResource.markedRemoved p)
        (client.GetProduct d.id w.remote).2).1 = some e →
      (CatalogProductResource.Delete client d w).outcome = .returned (some e)
      ∧ (CatalogProductResource.Delete client d w).d = d)
    ∧ (∀ d : SubscriptionPlanResource.ResourceData,
      (client.DeactivateSubscriptionPlans d.id w.remote).1 = some e →
      (SubscriptionPlanResource.Delete client d w).outcome = .returned (some e)
      ∧ (SubscriptionPlanResource.Delete client d w).d = d) := by
  refine ⟨?_, ?_, ?_, ?_⟩
  · intro d h
    simp [WebhookResource.Delete, World.call, h]
  · intro d h
    simp [CatalogProductResource.Delete, World.call, h]
  · intro d p hget hupdate
    have hupdate' : (client.UpdateProduct
        { ID := p.ID, Name := "(removed) " ++ p.Name,
          Description := "(removed) " ++ p.Description, Category := p.Category,
          Type_ := p.Type_, ImageUrl := p.ImageUrl, HomeUrl := p.HomeUrl }
        (client.GetProduct d.id w.remote).2).1 = some e := hupdate
    simp [CatalogProductResource.Delete, World.call, hget, hupdate']
  · intro d h
    simp [SubscriptionPlanResource.Delete, World.call, h]

/-- Witness for C5: each of the four failing calls, against stub remote APIs,
with a non-empty local ID. -/
theorem C5_delete_failure_keeps_local_state_witness :
    exampleWebhookData.id ≠ "" ∧ exampleProductData.id ≠ "" ∧ examplePlanData.id ≠ ""
    ∧ ((WebhookResource.Delete (failingClient ⟨"remote"⟩) exampleWebhookData World.start).outcome
        = .returned (some ⟨"remote"⟩)
      ∧ (WebhookResource.Delete (failingClient ⟨"remote"⟩) exampleWebhookData World.start).d
        = exampleWebhookData)
    ∧ ((CatalogProductResource.Delete (failingClient ⟨"remote"⟩) exampleProductData
          World.start).outcome = .returned (some ⟨"remote"⟩)
      ∧ (CatalogProductResource.Delete (failingClient ⟨"remote"⟩) exampleProductData
          World.start).d = exampleProductData
      ∧ (CatalogProductResource.Delete (failingClient ⟨"remote"⟩) exampleProductData
          World.start).world.calls = [.GetProduct "PROD-1"])
    ∧ ((CatalogProductResource.Delete (updateProductFailsClient ⟨"remote"⟩) exampleProductData
          World.start).outcome = .returned (some ⟨"remote"⟩)
      ∧ (CatalogProductResource.Delete (updateProductFailsClient ⟨"remote"⟩) exampleProductData
          World.start).d = exampleProductData)
    ∧ ((SubscriptionPlanResource.Delete (failingClient ⟨"remote"⟩) examplePlanData
          World.start).outcome = .returned (some ⟨"remote"⟩)
      ∧ (SubscriptionPlanResource.Delete (failingClient ⟨"remote"⟩) examplePlanData
          World.start).d = examplePlanData) :=
  ⟨by decide, by decide, by decide,
   (C5_delete_failure_keeps_local_state (failingClient ⟨"remote"⟩) World.start ⟨"remote"⟩).1
     exampleWebhookData rfl,
   (C5_delete_failure_keeps_local_state (failingClient ⟨"remote"⟩) World.start ⟨"remote"⟩).2.1
     exampleProductData rfl,
   (C5_delete_failure_keeps_local_state (updateProductFailsClient ⟨"remote"⟩) World.start
     ⟨"remote"⟩).2.2.1 exampleProductData exampleProduct rfl rfl,
   (C5_delete_failure_keeps_local_state (failingClient ⟨"remote"⟩) World.start ⟨"remote"⟩).2.2.2
     examplePlanData rfl⟩

/-! ### C6: `SubscriptionPlanResource.Update` after a failed pricing update -/

open SubscriptionPlanResource in
/-- When the general update succeeds and the pricing update fails,
`Update` returns `nil`: it issues the two update calls and nothing else,
leaves the resource data as it was, and reports no error. -/
theorem update_pricing_failure {σ : Type} (tables : CaseTables) (client : Client σ)
    (d : ResourceData) (w : World σ) (plan : paypalSdk.SubscriptionPlan) (e : Error)
    (hplan : sdkObjectFromResourceData d = .ok plan)
    (hgeneral : (client.UpdateSubscriptionPlan plan w.remote).1 = none)
    (hpricing : (client.UpdateSubscriptionPlanPricing plan.ID
      (pricingSchemeUpdates plan.BillingCycles)
      (client.UpdateSubscriptionPlan plan w.remote).2).1 = some e) :
    (Update tables client d w).outcome = .returned none
    ∧ (Update tables client d w).d = d
    ∧ (Update tables client d w).world.calls
        = w.calls ++ [.UpdateSubscriptionPlan plan,
            .UpdateSubscriptionPlanPricing plan.ID (pricingSchemeUpdates plan.BillingCycles)] := by
  simp [Update, World.call, hplan, hgeneral, hpricing]

open SubscriptionPlanResource in
/-- C6 (the code at the failing input): the example plan is updated against a
remote API on which the general update succeeds and the pricing update fails
with `e`.  `Update` returns no error at all, where C6 says it returns one;
the only calls are the two updates, so no compensating call is issued. -/
theorem C6_update_swallows_pricing_error (tables : CaseTables) (e : Error) :
    (Update tables (pricingFailsClient e) examplePlanData World.start).outcome
        = .returned none
    ∧ (∃ plan,
        sdkObjectFromResourceData examplePlanData = .ok plan
        ∧ (Update tables (pricingFailsClient e) examplePlanData World.start).world.calls
          = [.UpdateSubscriptionPlan plan,
             .UpdateSubscriptionPlanPricing "P-1" (pricingSchemeUpdates plan.BillingCycles)]
        ∧ ((pricingFailsClient e).UpdateSubscriptionPlan plan ()).1 = none
        ∧ ((pricingFailsClient e).UpdateSubscriptionPlanPricing "P-1"
            (pricingSchemeUpdates plan.BillingCycles) ()).1 = some e) := by
  refine ⟨rfl, _, rfl, rfl, rfl, rfl⟩

/-! ### C7, C8: webhook event types -/

/-- On ASCII text `strings.ToUpper` does not consult the case tables. -/
theorem ToUpper_ascii (tables tables' : CaseTables) (s : String)
    (h : ∀ c ∈ s.data, c.toNat ≤ 0x7F) :
    strings.ToUpper tables s = strings.ToUpper tables' s := by
  unfold strings.ToUpper
  congr 1
  apply List.map_congr_left
  intro c hc
  simp [unicode.ToUpper, h c hc]

/-- On ASCII text `strings.ToLower` does not consult the case tables. -/
theorem ToLower_ascii (tables tables' : CaseTables) (s : String)
    (h : ∀ c ∈ s.data, c.toNat ≤ 0x7F) :
    strings.ToLower tables s = strings.ToLower tables' s := by
  unfold strings.ToLower
  congr 1
  apply List.map_congr_left
  intro c hc
  simp [unicode.ToLower, h c hc]

/-- A loop that appends one image per element builds the mapped list. -/
theorem foldl_append_singleton {α β : Type} (f : α → β) (l : List α) (acc : List β) :
    l.foldl (fun acc x => acc ++ [f x]) acc = acc ++ l.map f := by
  induction l generalizing acc with
  | nil => simp
  | cons x xs ih => simp [ih]

open WebhookResource in
/-- C7: for every list of event-type names, `eventTypeNamesToEventTypes`
returns a list of the same length whose i-th element has `Name` equal to the
upper-cased i-th input name (order preserved, nothing dropped or
deduplicated); `["TEST_NaMe_1", "TEST_NAME_2", "test_name_3"]` gives the
names `["TEST_NAME_1", "TEST_NAME_2", "TEST_NAME_3"]`. -/
theorem C7_eventTypeNamesToEventTypes_upper (tables : CaseTables) (names : List String) :
    (eventTypeNamesToEventTypes tables names).length = names.length
    ∧ (∀ i : Nat, ((eventTypeNamesToEventTypes tables names)[i]?).map (·.Name)
        = (names[i]?).map (strings.ToUpper tables))
    ∧ eventTypeNamesToEventTypes tables ["TEST_NaMe_1", "TEST_NAME_2", "test_name_3"]
        = [{ Name := "TEST_NAME_1" }, { Name := "TEST_NAME_2" }, { Name := "TEST_NAME_3" }] := by
  have h : eventTypeNamesToEventTypes tables names
      = names.map (fun n => { Name := strings.ToUpper tables n }) := by
    simp [eventTypeNamesToEventTypes, foldl_append_singleton]
  refine ⟨by simp [h], ?_, ?_⟩
  · intro i
    rw [h, List.getElem?_map]
    cases names[i]? <;> rfl
  · rw [show eventTypeNamesToEventTypes tables ["TEST_NaMe_1", "TEST_NAME_2", "test_name_3"]
        = ["TEST_NaMe_1", "TEST_NAME_2", "test_name_3"].map
            (fun n => { Name := strings.ToUpper tables n }) by
      simp [eventTypeNamesToEventTypes, foldl_append_singleton]]
    simp only [List.map]
    rw [ToUpper_ascii tables exampleTables "TEST_NaMe_1" (by decide),
      ToUpper_ascii tables exampleTables "TEST_NAME_2" (by decide),
      ToUpper_ascii tables exampleTables "test_name_3" (by decide)]
    decide

open WebhookResource in
/-- C8: for every list of remote webhook event types,
`eventTypesToEventTypeNames` returns the list of their `Name` fields in the
same order and of the same length, each string exactly as stored remotely; a
stored `"test_name_3"` comes back as `"test_name_3"`, a stored
`"TEST_NAME_1"` as `"TEST_NAME_1"`. -/
theorem C8_eventTypesToEventTypeNames_verbatim (eventTypes : List paypalSdk.WebhookEventType) :
    eventTypesToEventTypeNames eventTypes = eventTypes.map (·.Name)
    ∧ (eventTypesToEventTypeNames eventTypes).length = eventTypes.length
    ∧ (∀ i : Nat, (eventTypesToEventTypeNames eventTypes)[i]? = (eventTypes[i]?).map (·.Name))
    ∧ eventTypesToEventTypeNames
        [{ Name := "TEST_NAME_1" }, { Name := "TEST_NAME_2" }, { Name := "test_name_3" }]
        = ["TEST_NAME_1", "TEST_NAME_2", "test_name_3"] := by
  have h : eventTypesToEventTypeNames eventTypes = eventTypes.map (·.Name) := by
    simp [eventTypesToEventTypeNames, foldl_append_singleton]
  refine ⟨h, by simp [h], ?_, by decide⟩
  intro i
  rw [h, List.getElem?_map]

/-! ### C9, C10: case handling of the catalog product -/

/-- An ASCII code point is the code of the character made from it. -/
theorem toNat_ofNat_ascii : ∀ n : Nat, n < 128 → (Char.ofNat n).toNat = n := by
  decide

/-- Lower-casing undoes upper-casing on an ASCII character that is not an
upper-case letter. -/
theorem unicode_ToLower_ToUpper (tables : CaseTables) (c : Char) (h : c.toNat ≤ 0x7F)
    (hl : ¬ ('A'.toNat ≤ c.toNat ∧ c.toNat ≤ 'Z'.toNat)) :
    unicode.ToLower tables (unicode.ToUpper tables c) = c := by
  have hA : 'A'.toNat = 65 := rfl
  have hZ : 'Z'.toNat = 90 := rfl
  have ha : 'a'.toNat = 97 := rfl
  have hz : 'z'.toNat = 122 := rfl
  rw [hA, hZ] at hl
  unfold unicode.ToUpper
  rw [if_pos h, ha, hz]
  by_cases hc : 97 ≤ c.toNat ∧ c.toNat ≤ 122
  · rw [if_pos hc]
    have hn : (Char.ofNat (c.toNat - 32)).toNat = c.toNat - 32 :=
      toNat_ofNat_ascii _ (by omega)
    unfold unicode.ToLower
    rw [hn, hA, hZ, if_pos (by omega), if_pos (by omega)]
    have : c.toNat - 32 + 32 = c.toNat := by omega
    rw [this, Char.ofNat_toNat]
  · rw [if_neg hc]
    unfold unicode.ToLower
    rw [if_pos h, hA, hZ, if_neg hl]

/-- Lower-casing undoes upper-casing on a lower-case ASCII string. -/
theorem ToLower_ToUpper (tables : CaseTables) (t : String) (h : isLowerASCII t) :
    strings.ToLower tables (strings.ToUpper tables t) = t := by
  unfold strings.ToLower strings.ToUpper
  simp only [List.map_map]
  have : t.data.map (unicode.ToLower tables ∘ unicode.ToUpper tables) = t.data := by
    conv_rhs => rw [← List.map_id t.data]
    apply List.map_congr_left
    intro c hc
    exact unicode_ToLower_ToUpper tables c (h c hc).1 (h c hc).2
  rw [this]

open CatalogProductResource in
/-- The acceptable product types are `"physical"`, `"digital"` and
`"service"`, whatever the case tables are. -/
theorem productTypes_eq (tables : CaseTables) :
    productTypes tables = ["physical", "digital", "service"] := by
  unfold productTypes
  rw [ToLower_ascii tables exampleTables "PHYSICAL" (by decide),
    ToLower_ascii tables exampleTables "DIGITAL" (by decide),
    ToLower_ascii tables exampleTables "SERVICE" (by decide)]
  decide

open CatalogProductResource in
/-- C9: for every catalog product desired state, the remote object sent by
`Create` and by `Update` (one is sent exactly when `image_url` and `home_url`
are both non-empty) has `Type` equal to the upper-cased declared `type`; for
every remote product, `Read` sets the observed `type` to the lower-cased
remote `Type`; hence for a declared lower-case type `t` (lower-case ASCII, as
each of the product types of `productTypes` is), reading back an object whose
`Type` is the one that was sent yields `t` again. -/
theorem C9_product_type_case {σ : Type} (tables : CaseTables) (client : Client σ)
    (d : ResourceData) (w : World σ) :
    (d.image_url ≠ "" → d.home_url ≠ "" →
      ∃ sent, (Create tables client d w).world.calls = w.calls ++ [.CreateProduct sent]
        ∧ sent.Type_ = strings.ToUpper tables d.type_)
    ∧ (d.image_url ≠ "" → d.home_url ≠ "" →
      ∃ sent rest, (Update tables client d w).world.calls
          = w.calls ++ .UpdateProduct sent :: rest
        ∧ sent.Type_ = strings.ToUpper tables d.type_)
    ∧ (∀ p : paypalSdk.Product, (client.GetProduct d.id w.remote).1 = .ok p →
      (Read tables client d w).d.type_ = strings.ToLower tables p.Type_)
    ∧ (∀ p : paypalSdk.Product, isLowerASCII d.type_ →
      p.Type_ = strings.ToUpper tables d.type_ →
      (client.GetProduct d.id w.remote).1 = .ok p →
      (Read tables client d w).d.type_ = d.type_)
    ∧ (∀ t ∈ productTypes tables, isLowerASCII t) := by
  have hread : ∀ p : paypalSdk.Product, (client.GetProduct d.id w.remote).1 = .ok p →
      (Read tables client d w).d.type_ = strings.ToLower tables p.Type_ := by
    intro p hp
    simp [Read, World.call, hp]
  refine ⟨?_, ?_, hread, ?_, ?_⟩
  rotate_right
  · rw [productTypes_eq]
    decide
  · intro h₁ h₂
    refine ⟨{ ID := ""
              Name := d.name
              Description := d.description
              ImageUrl := d.image_url
              HomeUrl := d.home_url
              Type_ := strings.ToUpper tables d.type_
              Category := strings.ToUpper tables d.category }, ?_, rfl⟩
    simp only [Create, World.call, h₁, h₂, or_self, if_false]
    cases (client.CreateProduct _ w.remote).1 <;> rfl
  · intro h₁ h₂
    refine ⟨{ ID := d.id
              Name := d.name
              Description := d.description
              ImageUrl := d.image_url
              HomeUrl := d.home_url
              Type_ := strings.ToUpper tables d.type_
              Category := strings.ToUpper tables d.category }, ?_⟩
    simp only [Update, World.call, h₁, h₂, or_self, if_false]
    split
    · exact ⟨[], rfl, trivial⟩
    · refine ⟨[.GetProduct d.id], ?_, trivial⟩
      simp only [Read, World.call]
      split <;> simp
  · intro p hl hp hget
    rw [hread p hget, hp, ToLower_ToUpper tables _ hl]

open CatalogProductResource in
/-- Witness for C9: the example product, declared with `type = "digital"`, is
sent with `Type = "DIGITAL"`; reading the example remote product, whose `Type`
is `"DIGITAL"`, yields `"digital"`. -/
theorem C9_product_type_case_witness :
    exampleProductData.image_url ≠ "" ∧ exampleProductData.home_url ≠ ""
    ∧ (∃ sent, (Create exampleTables okClient exampleProductData World.start).world.calls
          = World.start.calls ++ [.CreateProduct sent]
        ∧ sent.Type_ = strings.ToUpper exampleTables exampleProductData.type_)
    ∧ strings.ToUpper exampleTables exampleProductData.type_ = "DIGITAL"
    ∧ (Read exampleTables okClient exampleProductData World.start).d.type_ = "digital" :=
  ⟨by decide, by decide,
   (C9_product_type_case exampleTables okClient exampleProductData World.start).1
     (by decide) (by decide),
   by decide,
   (C9_product_type_case exampleTables okClient exampleProductData World.start).2.2.2.1
     exampleProduct (by decide) (by decide) rfl⟩

open CatalogProductResource in
/-- C10, as stated, fails: for the example product, declared with
`category = "software"`, the object that `Create` sends has `Category`
`"SOFTWARE"`, which is not the declared string. -/
theorem C10_counterexample_category_upper_cased :
    exampleProductData.category = "software"
    ∧ (Create exampleTables okClient exampleProductData World.start).world.calls
        = [.CreateProduct
            { ID := ""
              Name := "Widget"
              Description := "desc"
              Category := "SOFTWARE"
              Type_ := "DIGITAL"
              ImageUrl := "https://example.com/widget.png"
              HomeUrl := "https://example.com/widget" }]
    ∧ ("SOFTWARE" : String) ≠ "software" := by
  decide

open CatalogProductResource in
/-- C10 (amended): for every catalog product, the remote object sent by
`Create` and by `Update` (one is sent exactly when `image_url` and `home_url`
are both non-empty) has `Category` equal to the upper-cased declared
`category`, and `Read` sets the observed `category` to the remote `Category`
character for character. -/
theorem C10_product_category_case {σ : Type} (tables : CaseTables) (client : Client σ)
    (d : ResourceData) (w : World σ) :
    (d.image_url ≠ "" → d.home_url ≠ "" →
      ∃ sent, (Create tables client d w).world.calls = w.calls ++ [.CreateProduct sent]
        ∧ sent.Category = strings.ToUpper tables d.category)
    ∧ (d.image_url ≠ "" → d.home_url ≠ "" →
      ∃ sent rest, (Update tables client d w).world.calls
          = w.calls ++ .UpdateProduct sent :: rest
        ∧ sent.Category = strings.ToUpper tables d.category)
    ∧ (∀ p : paypalSdk.Product, (client.GetProduct d.id w.remote).1 = .ok p →
      (Read tables client d w).d.category = p.Category) := by
  refine ⟨?_, ?_, ?_⟩
  · intro h₁ h₂
    refine ⟨{ ID := ""
              Name := d.name
              Description := d.description
              ImageUrl := d.image_url
              HomeUrl := d.home_url
              Type_ := strings.ToUpper tables d.type_
              Category := strings.ToUpper tables d.category }, ?_, rfl⟩
    simp only [Create, World.call, h₁, h₂, or_self, if_false]
    cases (client.CreateProduct _ w.remote).1 <;> rfl
  · intro h₁ h₂
    refine ⟨{ ID := d.id
              Name := d.name
              Description := d.description
              ImageUrl := d.image_url
              HomeUrl := d.home_url
              Type_ := strings.ToUpper tables d.type_
              Category := strings.ToUpper tables d.category }, ?_⟩
    simp only [Update, World.call, h₁, h₂, or_self, if_false]
    split
    · exact ⟨[], rfl, trivial⟩
    · refine ⟨[.GetProduct d.id], ?_, trivial⟩
      simp only [Read, World.call]
      split <;> simp
  · intro p hp
    simp [Read, World.call, hp]

open CatalogProductResource in
/-- Witness for C10: the example product is sent with `Category`
`"SOFTWARE"`, and reading the example remote product yields its `Category`
`"SOFTWARE"` unchanged. -/
theorem C10_product_category_case_witness :
    exampleProductData.image_url ≠ "" ∧ exampleProductData.home_url ≠ ""
    ∧ (∃ sent, (Create exampleTables okClient exampleProductData World.start).world.calls
          = World.start.calls ++ [.CreateProduct sent]
        ∧ sent.Category = strings.ToUpper exampleTables exampleProductData.category)
    ∧ (okClient.GetProduct exampleProductData.id World.start.remote).1 = .ok exampleProduct
    ∧ (Read exampleTables okClient exampleProductData World.start).d.category
        = exampleProduct.Category :=
  ⟨by decide, by decide,
   (C10_product_category_case exampleTables okClient exampleProductData World.start).1
     (by decide) (by decide),
   rfl,
   (C10_product_category_case exampleTables okClient exampleProductData World.start).2.2
     exampleProduct rfl⟩

/-! ### Translation of billing cycles -/

/-- A successful `List.mapM` in `Except` maps the lists element by element. -/
theorem mapM_ok {α β ε : Type} (f : α → Except ε β) :
    ∀ (l : List α) (bs : List β), l.mapM f = .ok bs →
      bs.length = l.length
      ∧ ∀ (i : Nat) (a : α), l[i]? = some a → ∃ b, bs[i]? = some b ∧ f a = .ok b := by
  intro l
  induction l with
  | nil =>
    intro bs h
    simp only [List.mapM_nil, pure, Except.pure] at h
    cases h
    simp
  | cons a l ih =>
    intro bs h
    rw [List.mapM_cons] at h
    cases hf : f a with
    | error e =>
      rw [hf] at h
      cases h
    | ok b =>
      cases hl : l.mapM f with
      | error e =>
        rw [hf, hl] at h
        cases h
      | ok bs' =>
        rw [hf, hl] at h
        cases h
        obtain ⟨hlen, hget⟩ := ih bs' hl
        refine ⟨by simp [hlen], ?_⟩
        intro i x hx
        cases i with
        | zero =>
          simp only [List.getElem?_cons_zero, Option.some.injEq] at hx
          subst hx
          exact ⟨b, by simp, hf⟩
        | succ i =>
          simp only [List.getElem?_cons_succ] at hx ⊢
          exact hget i x hx

/-- `List.mapM` in `Except` succeeds when the function succeeds on every
element. -/
theorem mapM_ok_of_forall {α β ε : Type} (f : α → Except ε β) :
    ∀ (l : List α), (∀ a ∈ l, ∃ b, f a = .ok b) → ∃ bs, l.mapM f = .ok bs := by
  intro l
  induction l with
  | nil => intro _; exact ⟨[], rfl⟩
  | cons a l ih =>
    intro h
    obtain ⟨b, hb⟩ := h a (List.mem_cons_self a l)
    obtain ⟨bs, hbs⟩ := ih (fun x hx => h x (List.mem_cons_of_mem a hx))
    refine ⟨b :: bs, ?_⟩
    rw [List.mapM_cons, hb, hbs]
    rfl

/-- `List.mapM` in `Except` fails with `e` when the function fails with `e` on
some element and can fail in no other way. -/
theorem mapM_error_of_mem {α β ε : Type} (f : α → Except ε β) (e : ε)
    (honly : ∀ a e', f a = .error e' → e' = e) :
    ∀ (l : List α), (∃ a ∈ l, f a = .error e) → l.mapM f = .error e := by
  intro l
  induction l with
  | nil => rintro ⟨a, ha, _⟩; cases ha
  | cons x l ih =>
    rintro ⟨a, ha, hfa⟩
    rw [List.mapM_cons]
    cases hx : f x with
    | error e' =>
      have := honly x e' hx
      subst this
      rfl
    | ok b =>
      have hmem : a ∈ l := by
        rcases List.mem_cons.mp ha with h | h
        · subst h; rw [hx] at hfa; cases hfa
        · exact h
      rw [ih ⟨a, hmem, hfa⟩]
      rfl

open SubscriptionPlanResource in
/-- The plan that `sdkObjectFromResourceData` assembles from the scalar
attributes and the three translated parts, and the panics of the taxes and
payment-preferences steps. -/
theorem sdkObject_cases (d : ResourceData) :
    (d.taxes.length ≠ 1 →
      sdkObjectFromResourceData d
        = (d.billing_cycle.mapM billingCycleFromData).map (fun cycles =>
            { ID := d.id
              ProductId := d.product_id
              Name := d.name
              Status := ""
              Description := d.description
              BillingCycles := cycles
              PaymentPreferences := none
              Taxes := none
              QuantitySupported := d.quantity_supported }))
    ∧ (∀ t pp pps fee fees, d.taxes = [t] → d.payment_preferences = pp :: pps →
        pp.setup_fee = fee :: fees → fee.isNil = false →
      sdkObjectFromResourceData d
        = (d.billing_cycle.mapM billingCycleFromData).map (fun cycles =>
            { ID := d.id
              ProductId := d.product_id
              Name := d.name
              Status := ""
              Description := d.description
              BillingCycles := cycles
              PaymentPreferences := some
                { AutoBillOutstanding := pp.auto_bill_outstanding
                  PaymentFailureThreshold := pp.payment_failure_threshold
                  SetupFee := some { Currency := fee.currency_code, Value := fee.value }
                  SetupFeeFailureAction := pp.setup_fee_failure_action }
              Taxes := some { Percentage := t.percentage, Inclusive := t.inclusive }
              QuantitySupported := d.quantity_supported }))
    ∧ (∀ t, d.taxes = [t] →
        (d.payment_preferences = [] ∨ ∃ pp pps, d.payment_preferences = pp :: pps ∧
          pp.setup_fee = []) →
      sdkObjectFromResourceData d = .error .indexOutOfRange)
    ∧ (∀ t pp pps fee fees, d.taxes = [t] → d.payment_preferences = pp :: pps →
        pp.setup_fee = fee :: fees → fee.isNil = true →
      sdkObjectFromResourceData d = .error .interfaceConversion) := by
  refine ⟨?_, ?_, ?_, ?_⟩
  · intro h
    unfold sdkObjectFromResourceData
    simp only [h, if_false]
    cases d.billing_cycle.mapM billingCycleFromData <;> rfl
  · intro t pp pps fee fees ht hpp hfee hn
    unfold sdkObjectFromResourceData
    simp only [ht, hpp, List.length_singleton, if_true, index0, bind, Except.bind, pure,
      Except.pure, hfee, assertMap, hn, Bool.false_eq_true, if_false]
    cases d.billing_cycle.mapM billingCycleFromData <;> rfl
  · intro t ht h
    unfold sdkObjectFromResourceData
    rcases h with h | ⟨pp, pps, hpp, hfee⟩
    · simp only [ht, h, List.length_singleton, if_true, index0]
      rfl
    · simp only [ht, hpp, List.length_singleton, if_true, index0, bind, Except.bind, pure,
        Except.pure, hfee]
  · intro t pp pps fee fees ht hpp hfee hn
    unfold sdkObjectFromResourceData
    simp only [ht, hpp, List.length_singleton, if_true, index0, bind, Except.bind, pure,
      Except.pure, hfee, assertMap, hn, if_true]

open SubscriptionPlanResource in
/-- The loop body on a cycle whose three nested lists are non-empty and whose
first fixed price is not a nil element. -/
theorem billingCycleFromData_ok (c : BillingCycleData) (f : FrequencyData)
    (fs : List FrequencyData) (p : PricingSchemeData) (ps : List PricingSchemeData)
    (m : MoneyData) (ms : List MoneyData)
    (hf : c.frequency = f :: fs) (hp : c.pricing_scheme = p :: ps)
    (hm : p.fixed_price = m :: ms) (hn : m.isNil = false) :
    billingCycleFromData c = .ok
      { Sequence := c.sequence
        TotalCycles := c.total_cycles
        TenureType := c.tenure_type
        Frequency := { IntervalUnit := f.interval_unit, IntervalCount := f.interval_count }
        PricingScheme :=
          { Version := p.version
            FixedPrice := { Currency := m.currency_code, Value := m.value } } } := by
  unfold billingCycleFromData
  simp only [hf, hp, index0, bind, Except.bind, pure, Except.pure, hm, assertMap, hn,
    Bool.false_eq_true, if_false]

open SubscriptionPlanResource in
/-- The loop body panics with an interface conversion on a cycle whose first
fixed price is a nil element. -/
theorem billingCycleFromData_nil (c : BillingCycleData) (f : FrequencyData)
    (fs : List FrequencyData) (p : PricingSchemeData) (ps : List PricingSchemeData)
    (m : MoneyData) (ms : List MoneyData)
    (hf : c.frequency = f :: fs) (hp : c.pricing_scheme = p :: ps)
    (hm : p.fixed_price = m :: ms) (hn : m.isNil = true) :
    billingCycleFromData c = .error .interfaceConversion := by
  unfold billingCycleFromData
  simp only [hf, hp, index0, bind, Except.bind, pure, Except.pure, hm, assertMap, hn, if_true]

open SubscriptionPlanResource in
/-- The loop body panics with an index out of range on a malformed cycle. -/
theorem billingCycleFromData_malformed (c : BillingCycleData) (h : c.malformed) :
    billingCycleFromData c = .error .indexOutOfRange := by
  unfold billingCycleFromData
  rcases h with h | h | ⟨p, rest, hp, hm⟩
  · simp only [h, index0, bind, Except.bind]
  · cases hf : c.frequency <;> simp only [h, index0, bind, Except.bind]
  · cases hf : c.frequency <;> simp only [hp, index0, bind, Except.bind, hm]

open SubscriptionPlanResource in
/-- A cycle is malformed or has three non-empty nested lists. -/
theorem malformed_or_heads (c : BillingCycleData) :
    c.malformed ∨ ∃ f fs p ps m ms,
      c.frequency = f :: fs ∧ c.pricing_scheme = p :: ps ∧ p.fixed_price = m :: ms := by
  cases hf : c.frequency with
  | nil => exact Or.inl (Or.inl hf)
  | cons f fs =>
    cases hp : c.pricing_scheme with
    | nil => exact Or.inl (Or.inr (Or.inl hp))
    | cons p ps =>
      cases hm : p.fixed_price with
      | nil => exact Or.inl (Or.inr (Or.inr ⟨p, ps, hp, hm⟩))
      | cons m ms => exact Or.inr ⟨f, fs, p, ps, m, ms, rfl, rfl, hm⟩

open SubscriptionPlanResource in
/-- The three ways the loop body ends: an index out of range on a malformed
cycle, an interface conversion on a nil fixed price, or a translated cycle. -/
theorem billingCycleFromData_trichotomy (c : BillingCycleData) :
    (c.malformed ∧ billingCycleFromData c = .error .indexOutOfRange)
    ∨ (∃ f fs p ps m ms, c.frequency = f :: fs ∧ c.pricing_scheme = p :: ps
        ∧ p.fixed_price = m :: ms ∧ m.isNil = true
        ∧ billingCycleFromData c = .error .interfaceConversion)
    ∨ (∃ f fs p ps m ms, c.frequency = f :: fs ∧ c.pricing_scheme = p :: ps
        ∧ p.fixed_price = m :: ms ∧ m.isNil = false
        ∧ billingCycleFromData c = .ok
            { Sequence := c.sequence
              TotalCycles := c.total_cycles
              TenureType := c.tenure_type
              Frequency := { IntervalUnit := f.interval_unit, IntervalCount := f.interval_count }
              PricingScheme :=
                { Version := p.version
                  FixedPrice := { Currency := m.currency_code, Value := m.value } } }) := by
  rcases malformed_or_heads c with hm | ⟨f, fs, p, ps, m, ms, hf, hp, hm⟩
  · exact Or.inl ⟨hm, billingCycleFromData_malformed c hm⟩
  · cases hn : m.isNil with
    | true =>
      exact Or.inr (Or.inl ⟨f, fs, p, ps, m, ms, hf, hp, hm, hn,
        billingCycleFromData_nil c f fs p ps m ms hf hp hm hn⟩)
    | false =>
      exact Or.inr (Or.inr ⟨f, fs, p, ps, m, ms, hf, hp, hm, hn,
        billingCycleFromData_ok c f fs p ps m ms hf hp hm hn⟩)

open SubscriptionPlanResource in
/-- The panics of the loop body are the index out of range and the interface
conversion. -/
theorem billingCycleFromData_error (c : BillingCycleData) (e : Panic)
    (h : billingCycleFromData c = .error e) :
    e = .indexOutOfRange ∨ e = .interfaceConversion := by
  rcases billingCycleFromData_trichotomy c with ⟨_, h'⟩ | ⟨_, _, _, _, _, _, _, _, _, _, h'⟩
    | ⟨_, _, _, _, _, _, _, _, _, _, h'⟩
  · rw [h'] at h; cases h; exact Or.inl rfl
  · rw [h'] at h; cases h; exact Or.inr rfl
  · rw [h'] at h; cases h

open SubscriptionPlanResource in
/-- What a translated cycle carries, read off a successful loop body. -/
theorem billingCycleFromData_inv (c : BillingCycleData) (b : paypalSdk.BillingCycle)
    (h : billingCycleFromData c = .ok b) :
    ∃ f fs p ps m ms,
      c.frequency = f :: fs ∧ c.pricing_scheme = p :: ps ∧ p.fixed_price = m :: ms
      ∧ m.isNil = false
      ∧ b = { Sequence := c.sequence
              TotalCycles := c.total_cycles
              TenureType := c.tenure_type
              Frequency := { IntervalUnit := f.interval_unit, IntervalCount := f.interval_count }
              PricingScheme :=
                { Version := p.version
                  FixedPrice := { Currency := m.currency_code, Value := m.value } } } := by
  rcases billingCycleFromData_trichotomy c with ⟨_, h'⟩ | ⟨_, _, _, _, _, _, _, _, _, _, h'⟩
    | ⟨f, fs, p, ps, m, ms, hf, hp, hm, hn, h'⟩
  · rw [h'] at h; cases h
  · rw [h'] at h; cases h
  · rw [h'] at h
    cases h
    exact ⟨f, fs, p, ps, m, ms, hf, hp, hm, hn, rfl⟩

/-- A failing `List.mapM` in `Except` fails with the error of one of the
elements. -/
theorem mapM_error {α β ε : Type} (f : α → Except ε β) :
    ∀ (l : List α) (e : ε), l.mapM f = .error e → ∃ a ∈ l, f a = .error e := by
  intro l
  induction l with
  | nil => intro e h; cases h
  | cons x l ih =>
    intro e h
    rw [List.mapM_cons] at h
    cases hx : f x with
    | error e' =>
      rw [hx] at h
      cases h
      exact ⟨x, List.mem_cons_self x l, hx⟩
    | ok b =>
      cases hl : l.mapM f with
      | error e' =>
        rw [hx, hl] at h
        cases h
        obtain ⟨a, ha, hfa⟩ := ih _ hl
        exact ⟨a, List.mem_cons_of_mem x ha, hfa⟩
      | ok bs =>
        rw [hx, hl] at h
        cases h

/-- `List.mapM` in `Except` fails when the function fails on some element. -/
theorem mapM_error_of_exists {α β ε : Type} (f : α → Except ε β) (l : List α)
    (h : ∃ a ∈ l, ∃ e, f a = .error e) : ∃ e, l.mapM f = .error e := by
  cases hl : l.mapM f with
  | error e => exact ⟨e, rfl⟩
  | ok bs =>
    exfalso
    obtain ⟨a, ha, e, hfa⟩ := h
    obtain ⟨i, hi⟩ := List.getElem?_of_mem ha
    obtain ⟨b, _, hb⟩ := (mapM_ok f l bs hl).2 i a hi
    rw [hfa] at hb
    cases hb

open SubscriptionPlanResource in
/-- A plan that `sdkObjectFromResourceData` returns carries the ID and the
cycles translated by the loop, in order. -/
theorem sdkObject_inv (d : ResourceData) (plan : paypalSdk.SubscriptionPlan)
    (h : sdkObjectFromResourceData d = .ok plan) :
    plan.ID = d.id ∧ d.billing_cycle.mapM billingCycleFromData = .ok plan.BillingCycles := by
  obtain ⟨h₀, h₁, h₂, h₃⟩ := sdkObject_cases d
  have hmap : ∀ g : List paypalSdk.BillingCycle → paypalSdk.SubscriptionPlan,
      (∀ cycles, (g cycles).ID = d.id ∧ (g cycles).BillingCycles = cycles) →
      sdkObjectFromResourceData d = (d.billing_cycle.mapM billingCycleFromData).map g →
      plan.ID = d.id
        ∧ d.billing_cycle.mapM billingCycleFromData = .ok plan.BillingCycles := by
    intro g hg hd
    rw [hd] at h
    cases hm : d.billing_cycle.mapM billingCycleFromData with
    | error e => rw [hm] at h; cases h
    | ok cycles =>
      rw [hm] at h
      cases h
      exact ⟨(hg cycles).1, by rw [(hg cycles).2]⟩
  by_cases ht : d.taxes.length = 1
  · obtain ⟨t, ht'⟩ := List.length_eq_one.mp ht
    cases hpp : d.payment_preferences with
    | nil => rw [h₂ t ht' (Or.inl hpp)] at h; cases h
    | cons pp pps =>
      cases hfee : pp.setup_fee with
      | nil => rw [h₂ t ht' (Or.inr ⟨pp, pps, hpp, hfee⟩)] at h; cases h
      | cons fee fees =>
        cases hn : fee.isNil with
        | true => rw [h₃ t pp pps fee fees ht' hpp hfee hn] at h; cases h
        | false => exact hmap _ (fun _ => ⟨rfl, rfl⟩) (h₁ t pp pps fee fees ht' hpp hfee hn)
  · exact hmap _ (fun _ => ⟨rfl, rfl⟩) (h₀ ht)

/-! ### C11: case of the enumerated fields of a billing cycle -/

open SubscriptionPlanResource in
/-- Every cycle that `sdkObjectFromResourceData` translates carries the
declared `tenure_type` and `interval_unit` exactly as declared. -/
theorem sdkObject_enumerated_unchanged (d : ResourceData) (plan : paypalSdk.SubscriptionPlan)
    (h : sdkObjectFromResourceData d = .ok plan) (i : Nat) (c : BillingCycleData)
    (hc : d.billing_cycle[i]? = some c) :
    ∃ b f fs, plan.BillingCycles[i]? = some b ∧ c.frequency = f :: fs
      ∧ b.TenureType = c.tenure_type ∧ b.Frequency.IntervalUnit = f.interval_unit := by
  obtain ⟨_, hm⟩ := sdkObject_inv d plan h
  obtain ⟨b, hb, hbc⟩ := (mapM_ok billingCycleFromData _ _ hm).2 i c hc
  obtain ⟨f, fs, p, ps, m, ms, hf, _, _, _, rfl⟩ := billingCycleFromData_inv c b hbc
  exact ⟨_, f, fs, hb, hf, rfl, rfl⟩

open SubscriptionPlanResource in
/-- C11 (the code at the failing input): for the example plan, declared with
`tenure_type = "regular"` and `interval_unit = "month"`,
`sdkObjectFromResourceData` produces a cycle whose `TenureType` is
`"regular"` and whose `IntervalUnit` is `"month"`, not the upper-cased
`"REGULAR"` and `"MONTH"` that C11 states. -/
theorem C11_enumerated_fields_not_upper_cased (tables : CaseTables) :
    (∃ plan cycle, sdkObjectFromResourceData examplePlanData = .ok plan
      ∧ plan.BillingCycles = [cycle]
      ∧ cycle.TenureType = "regular" ∧ cycle.Frequency.IntervalUnit = "month")
    ∧ strings.ToUpper tables "regular" = "REGULAR"
    ∧ strings.ToUpper tables "month" = "MONTH"
    ∧ ("REGULAR" : String) ≠ "regular" ∧ ("MONTH" : String) ≠ "month" := by
  refine ⟨⟨_, _, rfl, rfl, rfl, rfl⟩, ?_, ?_, by decide, by decide⟩
  · rw [ToUpper_ascii tables exampleTables "regular" (by decide)]
    decide
  · rw [ToUpper_ascii tables exampleTables "month" (by decide)]
    decide

/-! ### C13, C14: billing cycles in `sdkObjectFromResourceData` -/

open SubscriptionPlanResource in
/-- C13, as stated, fails: two trees whose billing cycles each have one
`frequency`, one `pricing_scheme` and one `fixed_price`, on which
`sdkObjectFromResourceData` returns no plan.  In the first the `fixed_price`
block has an empty `value` and an empty `currency_code`, and the unchecked
assertion on it panics; in the second there is a `taxes` block and no
`payment_preferences` block, and indexing the payment preferences panics. -/
theorem C13_counterexample_well_formed_cycles_panic :
    (∀ c ∈ examplePlanDataEmptyPrice.billing_cycle, c.wellFormed)
    ∧ sdkObjectFromResourceData examplePlanDataEmptyPrice = .error .interfaceConversion
    ∧ (∀ c ∈ examplePlanDataNoPreferences.billing_cycle, c.wellFormed)
    ∧ examplePlanDataNoPreferences.taxes.length = 1
    ∧ sdkObjectFromResourceData examplePlanDataNoPreferences = .error .indexOutOfRange := by
  refine ⟨?_, rfl, ?_, rfl, rfl⟩
  · intro c hc
    simp only [examplePlanDataEmptyPrice, List.mem_singleton] at hc
    subst hc
    exact ⟨_, _, _, rfl, rfl, rfl⟩
  · intro c hc
    simp only [examplePlanDataNoPreferences, examplePlanData, List.mem_singleton] at hc
    subst hc
    exact ⟨_, _, _, rfl, rfl, rfl⟩

open SubscriptionPlanResource in
/-- C13 (amended): for every desired tree whose billing cycles each have one
`frequency`, one `pricing_scheme` and one `fixed_price` that is not the
all-empty block, and which, when it has exactly one `taxes` block, has a
`payment_preferences` block whose first `setup_fee` block exists and is not
all-empty, `sdkObjectFromResourceData` returns a plan whose `BillingCycles`
list has the length of the declared `billing_cycle` list and whose i-th cycle
carries the sequence, total_cycles, interval_count, version, price value and
currency of the i-th declared cycle: cycles are never reordered, dropped or
deduplicated, also when two cycles share a sequence number. -/
theorem C13_billing_cycles_in_order (d : ResourceData)
    (hcycles : ∀ c ∈ d.billing_cycle, ∃ f p m,
      c.frequency = [f] ∧ c.pricing_scheme = [p] ∧ p.fixed_price = [m] ∧ m.isNil = false)
    (hprefs : d.taxes.length = 1 → ∃ pp pps fee fees,
      d.payment_preferences = pp :: pps ∧ pp.setup_fee = fee :: fees ∧ fee.isNil = false) :
    ∃ plan, sdkObjectFromResourceData d = .ok plan
      ∧ plan.BillingCycles.length = d.billing_cycle.length
      ∧ ∀ (i : Nat) (c : BillingCycleData) (f : FrequencyData) (p : PricingSchemeData)
          (m : MoneyData),
          d.billing_cycle[i]? = some c → c.frequency = [f] → c.pricing_scheme = [p] →
          p.fixed_price = [m] →
          plan.BillingCycles[i]? = some
            { Sequence := c.sequence
              TotalCycles := c.total_cycles
              TenureType := c.tenure_type
              Frequency := { IntervalUnit := f.interval_unit, IntervalCount := f.interval_count }
              PricingScheme :=
                { Version := p.version
                  FixedPrice := { Currency := m.currency_code, Value := m.value } } } := by
  have hall : ∀ a ∈ d.billing_cycle, ∃ b, billingCycleFromData a = .ok b := by
    intro a ha
    obtain ⟨f, p, m, hf, hp, hm, hn⟩ := hcycles a ha
    exact ⟨_, billingCycleFromData_ok a f [] p [] m [] hf hp hm hn⟩
  obtain ⟨bs, hbs⟩ := mapM_ok_of_forall billingCycleFromData d.billing_cycle hall
  obtain ⟨h₀, h₁, _, _⟩ := sdkObject_cases d
  have hex : ∃ plan, sdkObjectFromResourceData d = .ok plan := by
    by_cases ht : d.taxes.length = 1
    · obtain ⟨t, ht'⟩ := List.length_eq_one.mp ht
      obtain ⟨pp, pps, fee, fees, hpp, hfee, hn⟩ := hprefs ht
      rw [h₁ t pp pps fee fees ht' hpp hfee hn, hbs]
      exact ⟨_, rfl⟩
    · rw [h₀ ht, hbs]
      exact ⟨_, rfl⟩
  obtain ⟨plan, hplan⟩ := hex
  obtain ⟨_, hm⟩ := sdkObject_inv d plan hplan
  refine ⟨plan, hplan, (mapM_ok billingCycleFromData _ _ hm).1, ?_⟩
  intro i c f p m hc hf hp hmoney
  obtain ⟨b, hb, hbc⟩ := (mapM_ok billingCycleFromData _ _ hm).2 i c hc
  obtain ⟨f', p', m', hf', hp', hm', hn⟩ := hcycles c (List.mem_iff_getElem?.mpr ⟨i, hc⟩)
  rw [hf] at hf'
  rw [hp] at hp'
  cases hf'
  cases hp'
  rw [hmoney] at hm'
  cases hm'
  rw [billingCycleFromData_ok c f [] p [] m [] hf hp hmoney hn] at hbc
  cases hbc
  exact hb

open SubscriptionPlanResource in
/-- Witness for C13: a trial cycle and a regular cycle that share the sequence
number 1 are translated to two cycles, in the declared order. -/
theorem C13_billing_cycles_in_order_witness :
    (∀ c ∈ examplePlanDataSharedSequence.billing_cycle, ∃ f p m,
      c.frequency = [f] ∧ c.pricing_scheme = [p] ∧ p.fixed_price = [m] ∧ m.isNil = false)
    ∧ (∃ plan, sdkObjectFromResourceData examplePlanDataSharedSequence = .ok plan
      ∧ plan.BillingCycles.length = examplePlanDataSharedSequence.billing_cycle.length
      ∧ ∀ (i : Nat) (c : BillingCycleData) (f : FrequencyData) (p : PricingSchemeData)
          (m : MoneyData),
          examplePlanDataSharedSequence.billing_cycle[i]? = some c → c.frequency = [f] →
          c.pricing_scheme = [p] → p.fixed_price = [m] →
          plan.BillingCycles[i]? = some
            { Sequence := c.sequence
              TotalCycles := c.total_cycles
              TenureType := c.tenure_type
              Frequency := { IntervalUnit := f.interval_unit, IntervalCount := f.interval_count }
              PricingScheme :=
                { Version := p.version
                  FixedPrice := { Currency := m.currency_code, Value := m.value } } })
    ∧ (∃ plan, sdkObjectFromResourceData examplePlanDataSharedSequence = .ok plan
      ∧ plan.BillingCycles.map (fun b => (b.Sequence, b.TotalCycles, b.PricingScheme.Version))
          = [(1, 2, 1), (1, 0, 2)]) :=
  have hwf : ∀ c ∈ examplePlanDataSharedSequence.billing_cycle, ∃ f p m,
      c.frequency = [f] ∧ c.pricing_scheme = [p] ∧ p.fixed_price = [m] ∧ m.isNil = false := by
    intro c hc
    simp only [examplePlanDataSharedSequence, List.mem_cons, List.mem_singleton,
      List.not_mem_nil, or_false] at hc
    rcases hc with rfl | rfl
    · exact ⟨_, _, _, rfl, rfl, rfl, rfl⟩
    · exact ⟨_, _, _, rfl, rfl, rfl, rfl⟩
  ⟨hwf,
   C13_billing_cycles_in_order examplePlanDataSharedSequence hwf
     (fun _ => ⟨_, _, _, _, rfl, rfl, rfl⟩),
   ⟨_, rfl, rfl⟩⟩

open SubscriptionPlanResource in
/-- C14, as stated, fails: for the example plan with an empty `frequency`
list, `sdkObjectFromResourceData` does not return an error value: it panics
with an index out of range, and so does `Create`. -/
theorem C14_counterexample_panic_not_error :
    examplePlanDataNoFrequency.billing_cycle.map (fun c => c.frequency) = [[]]
    ∧ sdkObjectFromResourceData examplePlanDataNoFrequency = .error .indexOutOfRange
    ∧ (Create exampleTables okClient examplePlanDataNoFrequency World.start).outcome
        = .panicked .indexOutOfRange
    ∧ (Create exampleTables okClient examplePlanDataNoFrequency World.start).outcome
        ≠ .returned (some ⟨"MalformedComposite"⟩) := by
  refine ⟨rfl, rfl, rfl, ?_⟩
  intro h
  cases h

open SubscriptionPlanResource in
/-- On a tree with a malformed cycle `sdkObjectFromResourceData` panics: with
an index out of range or an interface conversion, whichever unchecked step
fails first, and with an index out of range when no `setup_fee` or
`fixed_price` block is a nil element. -/
theorem sdkObject_malformed (d : ResourceData) (h : ∃ c ∈ d.billing_cycle, c.malformed) :
    ∃ p, (p = .indexOutOfRange ∨ p = .interfaceConversion)
      ∧ sdkObjectFromResourceData d = .error p
      ∧ (d.noNilBlocks → p = .indexOutOfRange) := by
  obtain ⟨c, hc, hbad⟩ := h
  obtain ⟨e, he⟩ := mapM_error_of_exists billingCycleFromData d.billing_cycle
    ⟨c, hc, _, billingCycleFromData_malformed c hbad⟩
  obtain ⟨a, ha, hfa⟩ := mapM_error billingCycleFromData d.billing_cycle e he
  have hkind := billingCycleFromData_error a e hfa
  have hidx : d.noNilBlocks → e = .indexOutOfRange := by
    intro hno
    rcases billingCycleFromData_trichotomy a with ⟨_, h'⟩
      | ⟨f, fs, p, ps, m, ms, _, hp, hm, hn, _⟩ | ⟨_, _, _, _, _, _, _, _, _, _, h'⟩
    · rw [h'] at hfa; cases hfa; rfl
    · have := hno.2 a ha p (by rw [hp]; exact List.mem_cons_self p ps) m
        (by rw [hm]; exact List.mem_cons_self m ms)
      rw [hn] at this
      cases this
    · rw [h'] at hfa; cases hfa
  obtain ⟨h₀, h₁, h₂, h₃⟩ := sdkObject_cases d
  by_cases ht : d.taxes.length = 1
  · obtain ⟨t, ht'⟩ := List.length_eq_one.mp ht
    cases hpp : d.payment_preferences with
    | nil => exact ⟨_, Or.inl rfl, h₂ t ht' (Or.inl hpp), fun _ => rfl⟩
    | cons pp pps =>
      cases hfee : pp.setup_fee with
      | nil => exact ⟨_, Or.inl rfl, h₂ t ht' (Or.inr ⟨pp, pps, hpp, hfee⟩), fun _ => rfl⟩
      | cons fee fees =>
        cases hn : fee.isNil with
        | true =>
          refine ⟨_, Or.inr rfl, h₃ t pp pps fee fees ht' hpp hfee hn, ?_⟩
          intro hno
          have := hno.1 pp (by rw [hpp]; exact List.mem_cons_self pp pps) fee
            (by rw [hfee]; exact List.mem_cons_self fee fees)
          rw [hn] at this
          cases this
        | false =>
          refine ⟨e, hkind, ?_, hidx⟩
          rw [h₁ t pp pps fee fees ht' hpp hfee hn, he]
          rfl
  · refine ⟨e, hkind, ?_, hidx⟩
    rw [h₀ ht, he]
    rfl

open SubscriptionPlanResource in
/-- C14 (amended): for every desired tree in which some billing cycle has a
`frequency` list with zero elements (likewise a `pricing_scheme` or
`fixed_price` list with zero elements), `sdkObjectFromResourceData` produces
no remote plan and returns no error value: it stops with a run-time panic,
`Create` and `Update` stop with the same panic, and they issue no remote call
for that tree.  The panic is an index out of range, or the interface
conversion of an all-empty `setup_fee` or `fixed_price` block that is reached
first; it is the index out of range whenever the tree has no such block. -/
theorem C14_malformed_cycle_panics {σ : Type} (tables : CaseTables) (client : Client σ)
    (d : ResourceData) (w : World σ) (h : ∃ c ∈ d.billing_cycle, c.malformed) :
    ∃ p, (p = .indexOutOfRange ∨ p = .interfaceConversion)
      ∧ sdkObjectFromResourceData d = .error p
      ∧ (Create tables client d w).outcome = .panicked p
      ∧ (Create tables client d w).world.calls = w.calls
      ∧ (Update tables client d w).outcome = .panicked p
      ∧ (Update tables client d w).world.calls = w.calls
      ∧ (d.noNilBlocks → p = .indexOutOfRange) := by
  obtain ⟨p, hkind, hpanic, hidx⟩ := sdkObject_malformed d h
  refine ⟨p, hkind, hpanic, ?_, ?_, ?_, ?_, hidx⟩ <;> simp [Create, Update, hpanic]

open SubscriptionPlanResource in
/-- Witness for C14: the example plan with an empty `frequency` list, against
a remote API on which every call would succeed. -/
theorem C14_malformed_cycle_panics_witness :
    (∃ c ∈ examplePlanDataNoFrequency.billing_cycle, c.malformed)
    ∧ examplePlanDataNoFrequency.noNilBlocks
    ∧ (∃ p, (p = .indexOutOfRange ∨ p = .interfaceConversion)
      ∧ sdkObjectFromResourceData examplePlanDataNoFrequency = .error p
      ∧ (Create exampleTables okClient examplePlanDataNoFrequency World.start).outcome
          = .panicked p
      ∧ (Create exampleTables okClient examplePlanDataNoFrequency World.start).world.calls
          = World.start.calls
      ∧ (Update exampleTables okClient examplePlanDataNoFrequency World.start).outcome
          = .panicked p
      ∧ (Update exampleTables okClient examplePlanDataNoFrequency World.start).world.calls
          = World.start.calls
      ∧ (examplePlanDataNoFrequency.noNilBlocks → p = .indexOutOfRange)) :=
  have hbad : ∃ c ∈ examplePlanDataNoFrequency.billing_cycle, c.malformed :=
    ⟨_, List.mem_singleton.mpr rfl, Or.inl rfl⟩
  have hno : examplePlanDataNoFrequency.noNilBlocks := by
    constructor
    · intro pp hpp fee hfee
      simp only [examplePlanDataNoFrequency, examplePlanData, List.mem_singleton] at hpp
      subst hpp
      simp only [List.mem_singleton] at hfee
      subst hfee
      rfl
    · intro c hc p hp m hm
      simp only [examplePlanDataNoFrequency, List.mem_singleton] at hc
      subst hc
      simp only [List.mem_singleton] at hp
      subst hp
      simp only [List.mem_singleton] at hm
      subst hm
      rfl
  ⟨hbad, hno,
   C14_malformed_cycle_panics exampleTables okClient examplePlanDataNoFrequency World.start
     hbad⟩

/-! ### C15: `CatalogProductResource.Create` -/

open CatalogProductResource in
/-- C15, as stated, fails: creating the example product issues `CreateProduct`
and no `GetProduct`, and the observed `type` afterwards is the `"DIGITAL"` of
the create response, where `Read` would store `"digital"`. -/
theorem C15_counterexample_create_does_not_read :
    (Create exampleTables okClient exampleProductData World.start).outcome = .returned none
    ∧ (Create exampleTables okClient exampleProductData World.start).world.calls
        = [.CreateProduct
            { ID := ""
              Name := "Widget"
              Description := "desc"
              Category := "SOFTWARE"
              Type_ := "DIGITAL"
              ImageUrl := "https://example.com/widget.png"
              HomeUrl := "https://example.com/widget" }]
    ∧ (Create exampleTables okClient exampleProductData World.start).d.type_ = "DIGITAL"
    ∧ (Read exampleTables okClient exampleProductData World.start).d.type_ = "digital" := by
  decide

open CatalogProductResource in
/-- C15 (amended): for every catalog product desired state whose remote
create call succeeds, `Create` issues that `CreateProduct` call and no other
remote call (no `Read`, no `GetProduct`), returns no error, stores the
returned ID, and sets `name`, `description`, `image_url`, `home_url` and
`category` to the values of the create response. -/
theorem C15_product_create_from_response {σ : Type} (tables : CaseTables) (client : Client σ)
    (d : ResourceData) (w : World σ) (product : paypalSdk.Product)
    (himage : d.image_url ≠ "") (hhome : d.home_url ≠ "")
    (hcreate : (client.CreateProduct
      { ID := ""
        Name := d.name
        Description := d.description
        ImageUrl := d.image_url
        HomeUrl := d.home_url
        Type_ := strings.ToUpper tables d.type_
        Category := strings.ToUpper tables d.category } w.remote).1 = .ok product) :
    (Create tables client d w).outcome = .returned none
    ∧ (Create tables client d w).world.calls
        = w.calls ++ [.CreateProduct
            { ID := ""
              Name := d.name
              Description := d.description
              ImageUrl := d.image_url
              HomeUrl := d.home_url
              Type_ := strings.ToUpper tables d.type_
              Category := strings.ToUpper tables d.category }]
    ∧ (Create tables client d w).d.id = product.ID
    ∧ (Create tables client d w).d.name = product.Name
    ∧ (Create tables client d w).d.description = product.Description
    ∧ (Create tables client d w).d.image_url = product.ImageUrl
    ∧ (Create tables client d w).d.home_url = product.HomeUrl
    ∧ (Create tables client d w).d.category = product.Category := by
  simp [Create, World.call, himage, hhome, hcreate]

open CatalogProductResource in
/-- Witness for C15: creating the example product against a remote API that
answers with the example remote product. -/
theorem C15_product_create_from_response_witness :
    exampleProductData.image_url ≠ "" ∧ exampleProductData.home_url ≠ ""
    ∧ (Create exampleTables okClient exampleProductData World.start).outcome = .returned none
    ∧ (Create exampleTables okClient exampleProductData World.start).world.calls.length = 1
    ∧ (Create exampleTables okClient exampleProductData World.start).d.id = "PROD-1" :=
  have h := C15_product_create_from_response exampleTables okClient exampleProductData
    World.start exampleProduct (by decide) (by decide) rfl
  ⟨by decide, by decide, h.1, by rw [h.2.1]; rfl, h.2.2.1⟩

/-! ### C16: `SubscriptionPlanResource.Create` when the following `Read` fails -/

open SubscriptionPlanResource in
/-- When the remote create succeeds and the `GetSubscriptionPlan` of the
following `Read` fails, `Create` returns `nil`. -/
theorem create_read_failure {σ : Type} (tables : CaseTables) (client : Client σ)
    (d : ResourceData) (w : World σ) (plan response : paypalSdk.SubscriptionPlan) (e : Error)
    (hplan : sdkObjectFromResourceData d = .ok plan)
    (hcreate : (client.CreateSubscriptionPlan plan w.remote).1 = .ok response)
    (hget : (client.GetSubscriptionPlan response.ID
      (client.CreateSubscriptionPlan plan w.remote).2).1 = .error e) :
    (Create tables client d w).outcome = .returned none
    ∧ (Create tables client d w).world.calls
        = w.calls ++ [.CreateSubscriptionPlan plan, .GetSubscriptionPlan response.ID] := by
  simp [Create, Read, World.call, hplan, hcreate, ResourceData.SetId, hget]

open SubscriptionPlanResource in
/-- C16 (the code at the failing input): the example plan is created against
a remote API on which `CreateSubscriptionPlan` succeeds and
`GetSubscriptionPlan` fails with `e`.  `Create` issues both calls and returns
no error, where C16 says it returns `e`. -/
theorem C16_create_swallows_read_error (tables : CaseTables) (e : Error) :
    (∃ plan response,
      sdkObjectFromResourceData examplePlanData = .ok plan
      ∧ ((getPlanFailsClient e).CreateSubscriptionPlan plan ()).1 = .ok response
      ∧ ((getPlanFailsClient e).GetSubscriptionPlan response.ID ()).1 = .error e
      ∧ (Create tables (getPlanFailsClient e) examplePlanData World.start).world.calls
          = [.CreateSubscriptionPlan plan, .GetSubscriptionPlan response.ID])
    ∧ (Create tables (getPlanFailsClient e) examplePlanData World.start).outcome
        = .returned none := by
  exact ⟨⟨_, _, rfl, rfl, rfl, rfl⟩, rfl⟩

/-! ### C17: the pricing update of `SubscriptionPlanResource.Update` -/

open SubscriptionPlanResource in
/-- However it ends, `Read` issues exactly one call, `GetSubscriptionPlan` for
the local ID. -/
theorem plan_Read_calls {σ : Type} (tables : CaseTables) (client : Client σ)
    (d : ResourceData) (w : World σ) :
    (Read tables client d w).world.calls = w.calls ++ [.GetSubscriptionPlan d.id] := by
  unfold Read
  simp only [World.call]
  split
  · rfl
  · split
    · rfl
    · split
      · rfl
      · split <;> rfl

open SubscriptionPlanResource in
/-- The loop that builds the pricing updates makes one entry per cycle, in
order. -/
theorem pricingSchemeUpdates_eq_map (billingCycles : List paypalSdk.BillingCycle) :
    pricingSchemeUpdates billingCycles
      = billingCycles.map (fun b =>
          { BillingCycleSequence := b.Sequence, PricingScheme := b.PricingScheme }) := by
  simp [pricingSchemeUpdates, foldl_append_singleton]

open SubscriptionPlanResource in
/-- C17: for every subscription plan desired state that
`sdkObjectFromResourceData` translates to `plan`, `Update` issues no
pricing-update call when the general update call fails; when the general
update call succeeds it issues exactly one pricing-update call right after
it, for the plan's ID (followed at most by the `GetSubscriptionPlan` of
`Read`), whose entries are one per declared billing cycle, in the declared
order, the i-th entry carrying the i-th cycle's sequence number as
`BillingCycleSequence` and the i-th cycle's pricing scheme. -/
theorem C17_update_pricing_call {σ : Type} (tables : CaseTables) (client : Client σ)
    (d : ResourceData) (w : World σ) (plan : paypalSdk.SubscriptionPlan)
    (hplan : sdkObjectFromResourceData d = .ok plan) :
    (∀ e, (client.UpdateSubscriptionPlan plan w.remote).1 = some e →
      (Update tables client d w).world.calls = w.calls ++ [.UpdateSubscriptionPlan plan])
    ∧ ((client.UpdateSubscriptionPlan plan w.remote).1 = none →
      ∃ rest, (Update tables client d w).world.calls
          = w.calls ++ [.UpdateSubscriptionPlan plan,
              .UpdateSubscriptionPlanPricing d.id (pricingSchemeUpdates plan.BillingCycles)]
            ++ rest
        ∧ (rest = [] ∨ rest = [.GetSubscriptionPlan d.id]))
    ∧ (pricingSchemeUpdates plan.BillingCycles).length = d.billing_cycle.length
    ∧ (∀ (i : Nat) (c : BillingCycleData), d.billing_cycle[i]? = some c →
      ∃ p ps m ms, c.pricing_scheme = p :: ps ∧ p.fixed_price = m :: ms
        ∧ (pricingSchemeUpdates plan.BillingCycles)[i]? = some
            { BillingCycleSequence := c.sequence
              PricingScheme :=
                { Version := p.version
                  FixedPrice := { Currency := m.currency_code, Value := m.value } } }) := by
  obtain ⟨hid, hm⟩ := sdkObject_inv d plan hplan
  refine ⟨?_, ?_, ?_, ?_⟩
  · intro e he
    simp [Update, World.call, hplan, he]
  · intro hok
    cases hpr : (client.UpdateSubscriptionPlanPricing plan.ID
        (pricingSchemeUpdates plan.BillingCycles)
        (client.UpdateSubscriptionPlan plan w.remote).2).1 with
    | some e =>
      refine ⟨[], ?_, Or.inl rfl⟩
      simp only [Update, World.call, hplan, hok, hpr]
      simp [hid]
    | none =>
      refine ⟨[.GetSubscriptionPlan d.id], ?_, Or.inr rfl⟩
      simp only [Update, World.call, hplan, hok, hpr]
      rw [plan_Read_calls]
      simp [hid]
  · rw [pricingSchemeUpdates_eq_map, List.length_map]
    exact (mapM_ok billingCycleFromData _ _ hm).1
  · intro i c hc
    obtain ⟨b, hb, hbc⟩ := (mapM_ok billingCycleFromData _ _ hm).2 i c hc
    obtain ⟨f, fs, p, ps, m, ms, _, hp, hmoney, _, rfl⟩ := billingCycleFromData_inv c b hbc
    refine ⟨p, ps, m, ms, hp, hmoney, ?_⟩
    rw [pricingSchemeUpdates_eq_map, List.getElem?_map, hb]
    rfl

open SubscriptionPlanResource in
/-- Witness for C17: updating the example plan against a remote API on which
every call succeeds issues the general update, one pricing update with the
single entry of the declared cycle, and the `GetSubscriptionPlan` of `Read`. -/
theorem C17_update_pricing_call_witness :
    (∃ plan, sdkObjectFromResourceData examplePlanData = .ok plan
      ∧ (okClient.UpdateSubscriptionPlan plan World.start.remote).1 = none
      ∧ (pricingSchemeUpdates plan.BillingCycles).length
          = examplePlanData.billing_cycle.length
      ∧ (Update exampleTables okClient examplePlanData World.start).world.calls
          = [.UpdateSubscriptionPlan plan,
             .UpdateSubscriptionPlanPricing "P-1"
               [{ BillingCycleSequence := 1
                  PricingScheme :=
                    { Version := 1, FixedPrice := { Currency := "USD", Value := "10" } } }],
             .GetSubscriptionPlan "P-1"]) :=
  ⟨_, rfl, rfl,
   (C17_update_pricing_call exampleTables okClient examplePlanData World.start _ rfl).2.2.1,
   rfl⟩

/-! ### C18: validation of the product type -/

/-- With `ignoreCase`, a value is in the slice exactly when its lower-casing
is the lower-casing of an element. -/
theorem StringInSlice_iff (tables : CaseTables) (valid : List String) (v : String) :
    StringInSlice tables valid true v = true
      ↔ ∃ t ∈ valid, strings.ToLower tables v = strings.ToLower tables t := by
  simp only [StringInSlice, List.any_eq_true, Bool.true_and, Bool.or_eq_true, beq_iff_eq]
  constructor
  · rintro ⟨t, ht, h | h⟩
    · exact ⟨t, ht, by rw [h]⟩
    · exact ⟨t, ht, h⟩
  · rintro ⟨t, ht, h⟩
    exact ⟨t, ht, Or.inr h⟩

open CatalogProductResource in
/-- C18: a desired tree for a catalog product is rejected with an
invalid-enum-value error, before any remote call is attempted, exactly when
its `type` is not equal under case-insensitive comparison to one of the
product types returned by `productTypes()`; `type = "bogus"` is rejected with
zero remote calls, and `"PHYSICAL"` and `"physical"` are both accepted. -/
theorem C18_product_type_validation (tables : CaseTables) :
    (∀ d : ResourceData,
      Validate tables d = .error (.InvalidEnumValue "type" d.type_)
        ↔ ∀ t ∈ productTypes tables,
            strings.ToLower tables d.type_ ≠ strings.ToLower tables t)
    ∧ (∀ d : ResourceData,
      Validate tables d = .ok ()
        ↔ ∃ t ∈ productTypes tables,
            strings.ToLower tables d.type_ = strings.ToLower tables t)
    ∧ (∀ {σ : Type} (client : Client σ) (d : ResourceData) (w : World σ) (e : ValidationError),
      Validate tables d = .error e → validatedCreate tables client d w = (.error e, d, w))
    ∧ Validate tables { exampleProductData with type_ := "bogus" }
        = .error (.InvalidEnumValue "type" "bogus")
    ∧ (validatedCreate tables okClient { exampleProductData with type_ := "bogus" }
        World.start).2.2.calls = []
    ∧ Validate tables { exampleProductData with type_ := "PHYSICAL" } = .ok ()
    ∧ Validate tables { exampleProductData with type_ := "physical" } = .ok () := by
  have hok : ∀ d : ResourceData,
      Validate tables d = .ok ()
        ↔ ∃ t ∈ productTypes tables,
            strings.ToLower tables d.type_ = strings.ToLower tables t := by
    intro d
    rw [← StringInSlice_iff]
    unfold Validate
    split <;> simp_all
  have herr : ∀ d : ResourceData,
      Validate tables d = .error (.InvalidEnumValue "type" d.type_)
        ↔ ∀ t ∈ productTypes tables,
            strings.ToLower tables d.type_ ≠ strings.ToLower tables t := by
    intro d
    have h := StringInSlice_iff tables (productTypes tables) d.type_
    unfold Validate
    split
    · rename_i hin
      simp only [false_iff, reduceCtorEq]
      intro hall
      obtain ⟨t, ht, heq⟩ := h.mp hin
      exact hall t ht heq
    · rename_i hin
      simp only [true_iff]
      intro t ht heq
      exact hin (h.mpr ⟨t, ht, heq⟩)
  have hcreate : ∀ {σ : Type} (client : Client σ) (d : ResourceData) (w : World σ)
      (e : ValidationError),
      Validate tables d = .error e → validatedCreate tables client d w = (.error e, d, w) := by
    intro σ client d w e he
    simp [validatedCreate, he]
  have lower : ∀ s : String, (∀ c ∈ s.data, c.toNat ≤ 0x7F) →
      strings.ToLower tables s = strings.ToLower exampleTables s :=
    fun s hs => ToLower_ascii tables exampleTables s hs
  have hbogus : Validate tables { exampleProductData with type_ := "bogus" }
      = .error (.InvalidEnumValue "type" "bogus") := by
    refine (herr _).mpr ?_
    intro t ht
    rw [productTypes_eq] at ht
    simp only [List.mem_cons, List.mem_singleton, List.not_mem_nil, or_false] at ht
    rcases ht with rfl | rfl | rfl
    · rw [lower "bogus" (by decide), lower "physical" (by decide)]; decide
    · rw [lower "bogus" (by decide), lower "digital" (by decide)]; decide
    · rw [lower "bogus" (by decide), lower "service" (by decide)]; decide
  refine ⟨herr, hok, hcreate, hbogus, ?_, ?_, ?_⟩
  · rw [hcreate okClient _ World.start _ hbogus]
    rfl
  · refine (hok _).mpr ⟨"physical", ?_, ?_⟩
    · rw [productTypes_eq]; decide
    · show strings.ToLower tables "PHYSICAL" = strings.ToLower tables "physical"
      rw [lower "PHYSICAL" (by decide), lower "physical" (by decide)]
      decide
  · refine (hok _).mpr ⟨"physical", ?_, rfl⟩
    rw [productTypes_eq]; decide

open CatalogProductResource in
/-- Witness for C18: the example product declared with `type = "bogus"` is
rejected, and the world is left without a call. -/
theorem C18_product_type_validation_witness :
    Validate exampleTables { exampleProductData with type_ := "bogus" }
      = .error (.InvalidEnumValue "type" "bogus")
    ∧ validatedCreate exampleTables okClient { exampleProductData with type_ := "bogus" }
        World.start
      = (.error (.InvalidEnumValue "type" "bogus"),
         { exampleProductData with type_ := "bogus" }, World.start) :=
  ⟨(C18_product_type_validation exampleTables).2.2.2.1,
   (C18_product_type_validation exampleTables).2.2.1 okClient _ World.start _
     (C18_product_type_validation exampleTables).2.2.2.1⟩

/-! ### C19, C12: payment preferences, taxes and the round trip -/

open SubscriptionPlanResource in
/-- For a tree with no `taxes` block, a plan that `sdkObjectFromResourceData`
returns has neither a `Taxes` object nor `PaymentPreferences`, whatever the
`payment_preferences` block holds. -/
theorem sdkObject_without_taxes (d : ResourceData) (plan : paypalSdk.SubscriptionPlan)
    (ht : d.taxes = []) (h : sdkObjectFromResourceData d = .ok plan) :
    plan.Taxes = none ∧ plan.PaymentPreferences = none := by
  have hlen : d.taxes.length ≠ 1 := by simp [ht]
  rw [(sdkObject_cases d).1 hlen] at h
  cases hm : d.billing_cycle.mapM billingCycleFromData with
  | error e => rw [hm] at h; cases h
  | ok cycles =>
    rw [hm] at h
    cases h
    exact ⟨rfl, rfl⟩

open SubscriptionPlanResource in
/-- C19 (the code at the failing input): the example plan declared without a
`taxes` block has one `payment_preferences` block with one `setup_fee`, yet
the remote plan that `sdkObjectFromResourceData` produces has no
`PaymentPreferences`, where C19 says it carries that block.  The same tree
with one `taxes` block is translated with its payment preferences, and the
plan has a `Taxes` object exactly in that case. -/
theorem C19_payment_preferences_need_taxes :
    examplePlanDataNoTaxes.taxes = []
    ∧ examplePlanDataNoTaxes.payment_preferences
        = [{ auto_bill_outstanding := true
             setup_fee := [{ value := "0", currency_code := "USD" }]
             payment_failure_threshold := 2
             setup_fee_failure_action := "continue" }]
    ∧ (∃ plan, sdkObjectFromResourceData examplePlanDataNoTaxes = .ok plan
        ∧ plan.PaymentPreferences = none ∧ plan.Taxes = none)
    ∧ (∃ plan, sdkObjectFromResourceData examplePlanData = .ok plan
        ∧ plan.PaymentPreferences = some
            { AutoBillOutstanding := true
              SetupFee := some { Currency := "USD", Value := "0" }
              SetupFeeFailureAction := "continue"
              PaymentFailureThreshold := 2 }
        ∧ plan.Taxes = some { Percentage := "10", Inclusive := false }) := by
  exact ⟨rfl, rfl, ⟨_, rfl, rfl, rfl⟩, ⟨_, rfl, rfl, rfl⟩⟩

/-- Lower-casing leaves a lower-case ASCII string as it is. -/
theorem ToLower_of_isLowerASCII (tables : CaseTables) (s : String) (h : isLowerASCII s) :
    strings.ToLower tables s = s := by
  unfold strings.ToLower
  have : s.data.map (unicode.ToLower tables) = s.data := by
    conv_rhs => rw [← List.map_id s.data]
    apply List.map_congr_left
    intro c hc
    have := h c hc
    unfold unicode.ToLower
    rw [if_pos this.1, if_neg this.2]
    rfl
  rw [this]

/-- `List.mapM` in `Option` over a mapped list, when the decoder inverts the
encoder on every element. -/
theorem mapM_map_some {α β : Type} (enc : α → β) (dec : β → Option α) :
    ∀ l : List α, (∀ a ∈ l, dec (enc a) = some a) → (l.map enc).mapM dec = some l := by
  intro l
  induction l with
  | nil => intro _; rfl
  | cons a l ih =>
    intro h
    rw [List.map_cons, List.mapM_cons, h a (List.mem_cons_self a l),
      ih (fun x hx => h x (List.mem_cons_of_mem a hx))]
    rfl

open SubscriptionPlanResource in
/-- `d.Set` accepts the value that `Read` builds for a translated cycle and
stores the declared cycle again, when the enumerated fields are lower-case. -/
theorem decode_readBillingCycle (tables : CaseTables) (c : BillingCycleData)
    (f : FrequencyData) (p : PricingSchemeData) (m : MoneyData)
    (hf : c.frequency = [f]) (hp : c.pricing_scheme = [p]) (hm : p.fixed_price = [m])
    (ht : isLowerASCII c.tenure_type) (hu : isLowerASCII f.interval_unit) :
    decodeBillingCycle (readBillingCycle tables
      { Sequence := c.sequence
        TotalCycles := c.total_cycles
        TenureType := c.tenure_type
        Frequency := { IntervalUnit := f.interval_unit, IntervalCount := f.interval_count }
        PricingScheme :=
          { Version := p.version
            FixedPrice := { Currency := m.currency_code, Value := m.value } } }) = some c := by
  obtain ⟨sequence, total_cycles, tenure_type, frequency, pricing_scheme⟩ := c
  obtain ⟨version, fixed_price⟩ := p
  simp only at hf hp hm ht
  subst hf hp hm
  simp [decodeBillingCycle, readBillingCycle, AttrValue.keysIn, AttrValue.getInt,
    AttrValue.getStr, AttrValue.getList, AttrValue.decodeList, List.lookup, decodeFrequency,
    decodePricingScheme, decodeMoney, ToLower_of_isLowerASCII tables _ ht,
    ToLower_of_isLowerASCII tables _ hu, List.mapM.loop]

open SubscriptionPlanResource in
/-- The cycles that `sdkObjectFromResourceData` translates are decoded back
to the declared cycles by the `d.Set("billing_cycle", ...)` of `Read`, when
every cycle is well formed with lower-case enumerated fields. -/
theorem decode_read_cycles (tables : CaseTables) :
    ∀ (l : List BillingCycleData) (cycles : List paypalSdk.BillingCycle),
      (∀ c ∈ l, ∃ f p m, c.frequency = [f] ∧ c.pricing_scheme = [p] ∧ p.fixed_price = [m]
        ∧ m.isNil = false ∧ isLowerASCII c.tenure_type ∧ isLowerASCII f.interval_unit) →
      l.mapM billingCycleFromData = .ok cycles →
      (cycles.map (readBillingCycle tables)).mapM decodeBillingCycle = some l := by
  intro l
  induction l with
  | nil =>
    intro cycles _ h
    cases h
    rfl
  | cons c l ih =>
    intro cycles hc h
    obtain ⟨f, p, m, hf, hp, hm, hn, ht, hu⟩ := hc c (List.mem_cons_self c l)
    rw [List.mapM_cons, billingCycleFromData_ok c f [] p [] m [] hf hp hm hn] at h
    cases hl : l.mapM billingCycleFromData with
    | error e =>
      rw [hl] at h
      cases h
    | ok rest =>
      rw [hl] at h
      cases h
      rw [List.map_cons, List.mapM_cons, decode_readBillingCycle tables c f p m hf hp hm ht hu,
        ih rest (fun x hx => hc x (List.mem_cons_of_mem c hx)) hl]
      rfl

open SubscriptionPlanResource in
/-- What the round trip preserves: for a tree with one `taxes` block, one
`payment_preferences` block with one `setup_fee`, and well-formed cycles with
lower-case enumerated fields (no `setup_fee` or `fixed_price` block being
all-empty), translating to the remote plan and back returns and yields the
original `product_id`, `name`, `description`, `quantity_supported`, `taxes`
and `billing_cycle`; `payment_preferences` is not restored. -/
theorem roundTrip_with_taxes (tables : CaseTables) (d : ResourceData) (t : TaxesData)
    (pp : PaymentPreferencesData) (fee : MoneyData)
    (ht : d.taxes = [t]) (hpp : d.payment_preferences = [pp]) (hfee : pp.setup_fee = [fee])
    (hfn : fee.isNil = false)
    (hc : ∀ c ∈ d.billing_cycle, ∃ f p m, c.frequency = [f] ∧ c.pricing_scheme = [p]
      ∧ p.fixed_price = [m] ∧ m.isNil = false
      ∧ isLowerASCII c.tenure_type ∧ isLowerASCII f.interval_unit) :
    (roundTrip tables d).outcome = .returned none
    ∧ (roundTrip tables d).d.product_id = d.product_id
    ∧ (roundTrip tables d).d.name = d.name
    ∧ (roundTrip tables d).d.description = d.description
    ∧ (roundTrip tables d).d.quantity_supported = d.quantity_supported
    ∧ (roundTrip tables d).d.taxes = d.taxes
    ∧ (roundTrip tables d).d.billing_cycle = d.billing_cycle
    ∧ (roundTrip tables d).d.payment_preferences = [] := by
  have hall : ∀ a ∈ d.billing_cycle, ∃ b, billingCycleFromData a = .ok b := by
    intro a ha
    obtain ⟨f, p, m, hf, hp, hm, hn, _, _⟩ := hc a ha
    exact ⟨_, billingCycleFromData_ok a f [] p [] m [] hf hp hm hn⟩
  obtain ⟨cycles, hcycles⟩ := mapM_ok_of_forall billingCycleFromData d.billing_cycle hall
  have hdec : List.mapM.loop decodeBillingCycle (cycles.map (readBillingCycle tables)) []
      = some d.billing_cycle := decode_read_cycles tables d.billing_cycle cycles hc hcycles
  have hplan := (sdkObject_cases d).2.1 t pp [] fee [] ht hpp hfee hfn
  rw [hcycles] at hplan
  unfold roundTrip
  rw [hplan]
  obtain ⟨percentage, inclusive⟩ := t
  simp [Except.map, Read, World.call, planClient, okClient, ResourceData.Set,
    ResourceData.SetId, ResourceData.blank, readTaxes, readPaymentPreferences, decodeTaxes,
    decodePaymentPreferences, AttrValue.decodeList, AttrValue.keysIn, AttrValue.getStr,
    AttrValue.getBool, AttrValue.getInt, AttrValue.getList, List.lookup, List.mapM.loop,
    decodeMoney, hdec, ht]

open SubscriptionPlanResource in
/-- C12 (the code at the failing inputs): for the example plan declared
without a `taxes` block, the plan that `sdkObjectFromResourceData` produces
has a nil `Taxes`, and translating it back with `Read` panics on the nil
dereference, so no tree is obtained.  For the example plan with its `taxes`
block the round trip returns, `taxes` and `billing_cycle` come back equal,
but `payment_preferences` comes back empty: `Read` hands `setup_fee` to
`d.Set` as a map where the schema has a list. -/
theorem C12_round_trip_fails (tables : CaseTables) :
    examplePlanDataNoTaxes.taxes = []
    ∧ (roundTrip tables examplePlanDataNoTaxes).outcome = .panicked .nilDereference
    ∧ (roundTrip exampleTables examplePlanData).outcome = .returned none
    ∧ (roundTrip exampleTables examplePlanData).d.taxes = examplePlanData.taxes
    ∧ (roundTrip exampleTables examplePlanData).d.billing_cycle = examplePlanData.billing_cycle
    ∧ (roundTrip exampleTables examplePlanData).d.payment_preferences = []
    ∧ examplePlanData.payment_preferences ≠ [] := by
  refine ⟨rfl, rfl, ?_, ?_, ?_, ?_, ?_⟩ <;> decide

end Paypal
